import Mathlib

/-!
Custodian data adapter: naming scheme and adapter lifecycle.

A shallow embedding of `pkg/adapters` of the custodian data adapter:
the tenant naming deriver, the adapter factory `NewCustodianDataAdapter`,
the lifecycle operations `Connect`, `Disconnect`, `HealthCheck`, and the SQL
statements issued by the PostgreSQL repositories.

Go strings are Lean strings, handled through their character lists.
A Go `error` is an `Option String`: `none` is the nil error and `some msg`
an error whose `Error()` text is `msg`.  A Go pointer that may be nil is an
`Option`.
-/

namespace Custodian

/-! ## Strings -/

/-- Tokens of a character list around a separator, as Go `strings.Split`
gives them for a one-character separator: the empty input has the single
empty token, and every occurrence of the separator starts a new token. -/
def splitOn (sep : Char) : List Char → List (List Char)
  | [] => [[]]
  | c :: cs =>
    if c = sep then [] :: splitOn sep cs
    else
      match splitOn sep cs with
      | [] => [[c]]
      | t :: ts => (c :: t) :: ts

/-- The `-`-separated tokens of a name. -/
def tokens (s : String) : List String :=
  (splitOn '-' s.data).map String.mk

/-- Lowercasing of a string, letter by letter (the letters `A`..`Z`; on
ASCII names this is what Go `strings.ToLower` computes). -/
def lower (s : String) : String :=
  String.mk (s.data.map Char.toLower)

/-- The first token of a name, its base. -/
def baseToken (s : String) : String :=
  (tokens s).headD ""

/-- A name is a singleton instance of a service when it has exactly one
token or is the service name itself. -/
def isSingleton (serviceName instanceName : String) : Bool :=
  (tokens instanceName).length == 1 || instanceName == serviceName

/-! ## Naming deriver -/

/-- Modelled from the spec: `deriveSchemaName` is called by
`factory_test.go` but its body is not among the sources.  Section 4.1:
the instance name is split on `-`; a singleton (one token, or the instance name
is the service name) gives the single base token passed through unchanged;
a multi-instance name gives its first two tokens, both lowercase, joined
with `_`; tokens after the second are discarded. -/
def deriveSchemaName (serviceName instanceName : String) : String :=
  match tokens instanceName with
  | [] => ""
  | [t] => t
  | t0 :: t1 :: _ =>
    if instanceName = serviceName then t0
    else lower t0 ++ "_" ++ lower t1

/-- Modelled from the spec: `deriveRedisNamespace` is called by
`factory_test.go` but its body is not among the sources.  Section 4.1: the
same tokenization and singleton decision as the schema derivation; the
multi-instance result joins the first token, lowercased, and the second
token verbatim with `:`; the singleton result is the same pass-through. -/
def deriveRedisNamespace (serviceName instanceName : String) : String :=
  match tokens instanceName with
  | [] => ""
  | [t] => t
  | t0 :: t1 :: _ =>
    if instanceName = serviceName then t0
    else lower t0 ++ ":" ++ t1

/-! ## Configuration and store clients -/

/-- Modelled from the spec: the declaration of `config.Config` is not among
the sources.  Its fields are the ones the sources read or write: the two
connection strings and the two repository namespaces (`factory.go`), the
service and instance names and the schema and namespace identifiers
(`factory_test.go`), the environment tag (section 3 of the spec). -/
structure Config where
  ServiceName : String
  ServiceInstanceName : String
  SchemaName : String
  RedisNamespace : String
  PostgresURL : String
  RedisURL : String
  ServiceDiscoveryNamespace : String
  CacheNamespace : String
  Environment : String
deriving DecidableEq, Repr

/-- A `*logrus.Logger` that is not nil. -/
structure Logger where
  id : Nat
deriving DecidableEq, Repr

/-- A `*sql.DB` handle. -/
structure SqlDB where
  id : Nat
deriving DecidableEq, Repr

/-- A `*database.PostgresDB` that is not nil; `DB` is the handle the
repositories are bound to. -/
structure PostgresDB where
  DB : SqlDB
deriving DecidableEq, Repr

/-- The connection handle inside a Redis client. -/
structure RedisHandle where
  id : Nat
deriving DecidableEq, Repr

/-- A `*cache.RedisClient` that is not nil. -/
structure RedisClient where
  Client : RedisHandle
deriving DecidableEq, Repr

/-- The store-client constructors of `internal/database` and
`internal/cache`, which are not among the sources: each reads the
configuration and gives a client or an error. -/
structure Env where
  NewPostgresDB : Config → Logger → Except String PostgresDB
  NewRedisClient : Config → Logger → Except String RedisClient

/-! ## Repositories -/

/-- The struct `PostgresPositionRepository`: the handle and the logger, nothing else. -/
structure PostgresPositionRepository where
  db : SqlDB
  logger : Logger
deriving DecidableEq, Repr

/-- The struct `PostgresSettlementRepository`. -/
structure PostgresSettlementRepository where
  db : SqlDB
  logger : Logger
deriving DecidableEq, Repr

/-- The struct `PostgresBalanceRepository`. -/
structure PostgresBalanceRepository where
  db : SqlDB
  logger : Logger
deriving DecidableEq, Repr

/-- Modelled from the spec: the Redis service-discovery repository is not
among the sources; it is bound at construction to a client handle,
a namespace and the logger. -/
structure RedisServiceDiscovery where
  client : RedisHandle
  keyNamespace : String
  logger : Logger
deriving DecidableEq, Repr

/-- Modelled from the spec: the Redis cache repository is not among the
sources; it is bound at construction to a client handle, a namespace and
the logger. -/
structure RedisCacheRepository where
  client : RedisHandle
  keyNamespace : String
  logger : Logger
deriving DecidableEq, Repr

def NewPostgresPositionRepository (db : SqlDB) (logger : Logger) :
    PostgresPositionRepository :=
  { db := db, logger := logger }

def NewPostgresSettlementRepository (db : SqlDB) (logger : Logger) :
    PostgresSettlementRepository :=
  { db := db, logger := logger }

def NewPostgresBalanceRepository (db : SqlDB) (logger : Logger) :
    PostgresBalanceRepository :=
  { db := db, logger := logger }

def NewRedisServiceDiscovery (client : RedisHandle) (ns : String) (logger : Logger) :
    RedisServiceDiscovery :=
  { client := client, keyNamespace := ns, logger := logger }

def NewRedisCacheRepository (client : RedisHandle) (ns : String) (logger : Logger) :
    RedisCacheRepository :=
  { client := client, keyNamespace := ns, logger := logger }

/-! ## Adapter -/

/-- What an operation of the adapter does to the outside, in order: the
constructors and store-client methods it calls and what it logs. -/
inductive Event where
  | newPostgresDB
  | newRedisClient
  | newPositionRepository
  | newSettlementRepository
  | newBalanceRepository
  | newServiceDiscovery
  | newCacheRepository
  | postgresConnect
  | redisConnect
  | postgresDisconnect
  | redisDisconnect
  | postgresHealthCheck
  | redisHealthCheck
  | warn (msg : String)
  | warnWithError (err msg : String)
  | errorWithError (err msg : String)
  | info (msg : String)
deriving DecidableEq, Repr

/-- The struct `CustodianDataAdapter`.  The logger field is never nil: the factory,
which is how an adapter is built, rejects a nil logger. -/
structure CustodianDataAdapter where
  config : Config
  logger : Logger
  postgresDB : Option PostgresDB
  redisClient : Option RedisClient
  positionRepo : Option PostgresPositionRepository
  settlementRepo : Option PostgresSettlementRepository
  balanceRepo : Option PostgresBalanceRepository
  serviceDiscoveryRepo : Option RedisServiceDiscovery
  cacheRepo : Option RedisCacheRepository
deriving DecidableEq, Repr

/-- The `Initialize PostgreSQL` block of `NewCustodianDataAdapter`. -/
def initPostgres (env : Env) (cfg : Config) (logger : Logger)
    (adapter : CustodianDataAdapter) : Except String CustodianDataAdapter × List Event :=
  if cfg.PostgresURL ≠ "" then
    match env.NewPostgresDB cfg logger with
    | .error err =>
      (.error ("failed to create PostgreSQL client: " ++ err), [.newPostgresDB])
    | .ok postgresDB =>
      (.ok { adapter with
              postgresDB := some postgresDB
              positionRepo := some (NewPostgresPositionRepository postgresDB.DB logger)
              settlementRepo := some (NewPostgresSettlementRepository postgresDB.DB logger)
              balanceRepo := some (NewPostgresBalanceRepository postgresDB.DB logger) },
       [.newPostgresDB, .newPositionRepository, .newSettlementRepository,
        .newBalanceRepository])
  else
    (.ok adapter,
     [.warn "PostgreSQL URL not configured, repositories will not be available"])

/-- The `Initialize Redis` block of `NewCustodianDataAdapter`. -/
def initRedis (env : Env) (cfg : Config) (logger : Logger)
    (adapter : CustodianDataAdapter) : Except String CustodianDataAdapter × List Event :=
  if cfg.RedisURL ≠ "" then
    match env.NewRedisClient cfg logger with
    | .error err =>
      (.error ("failed to create Redis client: " ++ err), [.newRedisClient])
    | .ok redisClient =>
      (.ok { adapter with
              redisClient := some redisClient
              serviceDiscoveryRepo :=
                some (NewRedisServiceDiscovery redisClient.Client
                  cfg.ServiceDiscoveryNamespace logger)
              cacheRepo :=
                some (NewRedisCacheRepository redisClient.Client cfg.CacheNamespace logger) },
       [.newRedisClient, .newServiceDiscovery, .newCacheRepository])
  else
    (.ok adapter,
     [.warn "Redis URL not configured, cache and service discovery will not be available"])

/-- The factory `NewCustodianDataAdapter(cfg, logger)`: the adapter or the error, and
the trace of what was called.  In a successful result the `config` field
is the configuration object as it stands when the factory returns. -/
def NewCustodianDataAdapter (env : Env) (cfg : Option Config) (logger : Option Logger) :
    Except String CustodianDataAdapter × List Event :=
  match cfg with
  | none => (.error "config is required", [])
  | some cfg =>
    match logger with
    | none => (.error "logger is required", [])
    | some logger =>
      let adapter : CustodianDataAdapter :=
        { config := cfg, logger := logger, postgresDB := none, redisClient := none,
          positionRepo := none, settlementRepo := none, balanceRepo := none,
          serviceDiscoveryRepo := none, cacheRepo := none }
      match initPostgres env cfg logger adapter with
      | (.error err, t1) => (.error err, t1)
      | (.ok adapter, t1) =>
        match initRedis env cfg logger adapter with
        | (.error err, t2) => (.error err, t1 ++ t2)
        | (.ok adapter, t2) => (.ok adapter, t1 ++ t2)

/-- Repository accessors. -/
def CustodianDataAdapter.PositionRepository (a : CustodianDataAdapter) :
    Option PostgresPositionRepository := a.positionRepo

def CustodianDataAdapter.SettlementRepository (a : CustodianDataAdapter) :
    Option PostgresSettlementRepository := a.settlementRepo

def CustodianDataAdapter.BalanceRepository (a : CustodianDataAdapter) :
    Option PostgresBalanceRepository := a.balanceRepo

def CustodianDataAdapter.ServiceDiscoveryRepository (a : CustodianDataAdapter) :
    Option RedisServiceDiscovery := a.serviceDiscoveryRepo

def CustodianDataAdapter.CacheRepository (a : CustodianDataAdapter) :
    Option RedisCacheRepository := a.cacheRepo

/-! ## Lifecycle -/

/-- What the store clients answer during one lifecycle call: for each
client the error of its method (connect, disconnect or health check), or
`none` when it succeeds.  The answer of a client that is not attached, or
that is not called, is not looked at. -/
structure StoreAnswers where
  postgres : Option String
  redis : Option String
deriving DecidableEq, Repr

/-- The method `Connect`: the returned error and the trace. -/
def CustodianDataAdapter.Connect (a : CustodianDataAdapter) (o : StoreAnswers) :
    Option String × List Event :=
  let t1 : List Event :=
    match a.postgresDB with
    | some _ =>
      match o.postgres with
      | some err =>
        [.postgresConnect, .warnWithError err "Failed to connect to PostgreSQL (stub mode)"]
      | none => [.postgresConnect]
    | none => []
  let t2 : List Event :=
    match a.redisClient with
    | some _ =>
      match o.redis with
      | some err =>
        [.redisConnect, .warnWithError err "Failed to connect to Redis (stub mode)"]
      | none => [.redisConnect]
    | none => []
  (none, t1 ++ t2 ++ [.info "Custodian data adapter connected"])

/-- The text `%v` gives for a slice of errors: the messages between
brackets, separated by one space. -/
def fmtErrors (errors : List String) : String :=
  "[" ++ String.intercalate " " errors ++ "]"

/-- The errors `Disconnect` has collected after its PostgreSQL block, and
the trace of that block. -/
def disconnectPostgres (a : CustodianDataAdapter) (o : StoreAnswers) :
    List String × List Event :=
  match a.postgresDB with
  | some _ =>
    match o.postgres with
    | some err => (["PostgreSQL disconnect error: " ++ err], [.postgresDisconnect])
    | none => ([], [.postgresDisconnect])
  | none => ([], [])

/-- The errors `Disconnect` adds in its Redis block, and the trace of that
block. -/
def disconnectRedis (a : CustodianDataAdapter) (o : StoreAnswers) :
    List String × List Event :=
  match a.redisClient with
  | some _ =>
    match o.redis with
    | some err => (["Redis disconnect error: " ++ err], [.redisDisconnect])
    | none => ([], [.redisDisconnect])
  | none => ([], [])

/-- The method `Disconnect`: the returned error and the trace. -/
def CustodianDataAdapter.Disconnect (a : CustodianDataAdapter) (o : StoreAnswers) :
    Option String × List Event :=
  let p := disconnectPostgres a o
  let r := disconnectRedis a o
  let errors := p.1 ++ r.1
  if errors.length > 0 then
    (some ("disconnect errors: " ++ fmtErrors errors), p.2 ++ r.2)
  else
    (none, p.2 ++ r.2 ++ [.info "Custodian data adapter disconnected"])

/-- The method `HealthCheck`: the returned error and the trace. -/
def CustodianDataAdapter.HealthCheck (a : CustodianDataAdapter) (o : StoreAnswers) :
    Option String × List Event :=
  let pg : Option String × List Event :=
    match a.postgresDB with
    | some _ =>
      match o.postgres with
      | some err => (some ("PostgreSQL health check failed: " ++ err), [.postgresHealthCheck])
      | none => (none, [.postgresHealthCheck])
    | none => (none, [])
  match pg with
  | (some err, t1) => (some err, t1)
  | (none, t1) =>
    match a.redisClient with
    | some _ =>
      match o.redis with
      | some err =>
        (some ("Redis health check failed: " ++ err), t1 ++ [.redisHealthCheck])
      | none => (none, t1 ++ [.redisHealthCheck])
    | none => (none, t1)

/-! ## SQL statements of the PostgreSQL repositories -/

/-- A `time.Time` value, as an instant. -/
structure Time where
  unixNano : Int
deriving DecidableEq, Repr

/-- A `float64` value.  The repositories pass such values to the store and
never compute on them, so only the identity of the value is kept. -/
structure Float64 where
  bits : Nat
deriving DecidableEq, Repr

/-- A value bound to a placeholder of a statement. -/
inductive SqlArg where
  | text (s : String)
  | float (x : Float64)
  | time (t : Time)
  | int (n : Int)
  | bytes (s : String)
  | null
deriving DecidableEq, Repr

/-- The struct `models.PositionQuery`. -/
structure PositionQuery where
  AccountID : Option String
  Symbol : Option String
  MinQuantity : Option Float64
  Currency : Option String
  UpdatedAfter : Option Time
  Limit : Int
  Offset : Int
  SortBy : String
  SortOrder : String
deriving DecidableEq, Repr

/-- The struct `models.SettlementQuery`; a status and a settlement type are strings. -/
structure SettlementQuery where
  AccountID : Option String
  Status : Option String
  SettlementType : Option String
  Symbol : Option String
  InitiatedAfter : Option Time
  Limit : Int
  Offset : Int
  SortBy : String
  SortOrder : String
deriving DecidableEq, Repr

/-- The struct `models.BalanceQuery`. -/
structure BalanceQuery where
  AccountID : Option String
  Currency : Option String
  MinBalance : Option Float64
  UpdatedAfter : Option Time
  Limit : Int
  Offset : Int
  SortBy : String
  SortOrder : String
deriving DecidableEq, Repr

def SettlementStatusPending : String := "PENDING"
def SettlementStatusCompleted : String := "COMPLETED"
def SettlementStatusCancelled : String := "CANCELLED"

/-- Uppercasing of one character: the letters `a`..`z`, and the long s
(U+017F), whose uppercase is `S`. -/
def upperChar (c : Char) : Char :=
  if c = Char.ofNat 0x17F then 'S' else c.toUpper

/-- Uppercasing of a string, character by character.  On ASCII text this is
what Go `strings.ToUpper` computes; the long s is the one character outside
ASCII that `strings.ToUpper` sends to a letter of `DESC`, so `upper s` is
`DESC` exactly when `strings.ToUpper(s)` is. -/
def upper (s : String) : String :=
  String.mk (s.data.map upperChar)

/-- The three locals of a `Query` method while it builds its statement. -/
structure QueryBuild where
  sqlQuery : String
  args : List SqlArg
  argCount : Nat
deriving DecidableEq, Repr

/-- One step `sqlQuery += fmt.Sprintf(text + "%d", argCount)`,
`args = append(args, v)`, `argCount++`. -/
def QueryBuild.addParam (b : QueryBuild) (text : String) (v : SqlArg) : QueryBuild :=
  { sqlQuery := b.sqlQuery ++ text ++ toString b.argCount
    args := b.args ++ [v]
    argCount := b.argCount + 1 }

/-- A step taken only when the optional filter is present. -/
def QueryBuild.addFilter (b : QueryBuild) (text : String) (v : Option SqlArg) : QueryBuild :=
  match v with
  | some v => b.addParam text v
  | none => b

/-- One step `sqlQuery += text`. -/
def QueryBuild.addText (b : QueryBuild) (text : String) : QueryBuild :=
  { b with sqlQuery := b.sqlQuery ++ text }

/-- The statement of `PostgresPositionRepository.Create`. -/
def PostgresPositionRepository.createSQL : String :=
  "\n\t\tINSERT INTO custodian.positions (\n" ++
  "\t\t\tposition_id, account_id, symbol, quantity, available_quantity, locked_quantity,\n" ++
  "\t\t\taverage_cost, market_value, currency, last_updated, created_at, metadata\n" ++
  "\t\t) VALUES ($1, $2, $3, $4, $5, $6, $7, $8, $9, $10, $11, $12)\n" ++
  "\t"

/-- The statement of `PostgresPositionRepository.GetByID`. -/
def PostgresPositionRepository.getByIDSQL : String :=
  "\n\t\tSELECT position_id, account_id, symbol, quantity, available_quantity, locked_quantity,\n" ++
  "\t\t\t   average_cost, market_value, currency, last_updated, created_at, metadata\n" ++
  "\t\tFROM custodian.positions\n" ++
  "\t\tWHERE position_id = $1\n" ++
  "\t"

/-- The statement of `PostgresPositionRepository.GetByAccountAndSymbol`. -/
def PostgresPositionRepository.getByAccountAndSymbolSQL : String :=
  "\n\t\tSELECT position_id, account_id, symbol, quantity, available_quantity, locked_quantity,\n" ++
  "\t\t\t   average_cost, market_value, currency, last_updated, created_at, metadata\n" ++
  "\t\tFROM custodian.positions\n" ++
  "\t\tWHERE account_id = $1 AND symbol = $2\n" ++
  "\t"

/-- The base text of the statement of `PostgresPositionRepository.Query`. -/
def PostgresPositionRepository.queryBaseSQL : String :=
  "\n\t\tSELECT position_id, account_id, symbol, quantity, available_quantity, locked_quantity,\n" ++
  "\t\t\t   average_cost, market_value, currency, last_updated, created_at, metadata\n" ++
  "\t\tFROM custodian.positions\n" ++
  "\t\tWHERE 1=1\n" ++
  "\t"

/-- The statement of `PostgresPositionRepository.Update`. -/
def PostgresPositionRepository.updateSQL : String :=
  "\n\t\tUPDATE custodian.positions\n" ++
  "\t\tSET account_id = $2, symbol = $3, quantity = $4, available_quantity = $5, locked_quantity = $6,\n" ++
  "\t\t\taverage_cost = $7, market_value = $8, currency = $9, last_updated = $10, metadata = $11\n" ++
  "\t\tWHERE position_id = $1\n" ++
  "\t"

/-- The statement of `PostgresPositionRepository.UpdateAvailableQuantity`. -/
def PostgresPositionRepository.updateAvailableQuantitySQL : String :=
  "\n\t\tUPDATE custodian.positions\n" ++
  "\t\tSET available_quantity = $2, locked_quantity = $3, last_updated = $4\n" ++
  "\t\tWHERE position_id = $1\n" ++
  "\t"

/-- The statement of `PostgresPositionRepository.Delete`. -/
def PostgresPositionRepository.deleteSQL : String :=
  "DELETE FROM custodian.positions WHERE position_id = $1"

/-- The statement of `PostgresSettlementRepository.Create`. -/
def PostgresSettlementRepository.createSQL : String :=
  "\n\t\tINSERT INTO custodian.settlements (\n" ++
  "\t\t\tsettlement_id, external_id, settlement_type, account_id, symbol, quantity, status,\n" ++
  "\t\t\tsource_account, destination_account, initiated_at, completed_at, expected_settlement_date, metadata\n" ++
  "\t\t) VALUES ($1, $2, $3, $4, $5, $6, $7, $8, $9, $10, $11, $12, $13)\n" ++
  "\t"

/-- The statement of `PostgresSettlementRepository.GetByID`. -/
def PostgresSettlementRepository.getByIDSQL : String :=
  "\n\t\tSELECT settlement_id, external_id, settlement_type, account_id, symbol, quantity, status,\n" ++
  "\t\t\t   source_account, destination_account, initiated_at, completed_at, expected_settlement_date, metadata\n" ++
  "\t\tFROM custodian.settlements\n" ++
  "\t\tWHERE settlement_id = $1\n" ++
  "\t"

/-- The statement of `PostgresSettlementRepository.GetByExternalID`. -/
def PostgresSettlementRepository.getByExternalIDSQL : String :=
  "\n\t\tSELECT settlement_id, external_id, settlement_type, account_id, symbol, quantity, status,\n" ++
  "\t\t\t   source_account, destination_account, initiated_at, completed_at, expected_settlement_date, metadata\n" ++
  "\t\tFROM custodian.settlements\n" ++
  "\t\tWHERE external_id = $1\n" ++
  "\t"

/-- The base text of the statement of `PostgresSettlementRepository.Query`. -/
def PostgresSettlementRepository.queryBaseSQL : String :=
  "\n\t\tSELECT settlement_id, external_id, settlement_type, account_id, symbol, quantity, status,\n" ++
  "\t\t\t   source_account, destination_account, initiated_at, completed_at, expected_settlement_date, metadata\n" ++
  "\t\tFROM custodian.settlements\n" ++
  "\t\tWHERE 1=1\n" ++
  "\t"

/-- The statement of `PostgresSettlementRepository.UpdateStatus`. -/
def PostgresSettlementRepository.updateStatusSQL : String :=
  "UPDATE custodian.settlements SET status = $2 WHERE settlement_id = $1"

/-- The statement of `PostgresSettlementRepository.Complete`. -/
def PostgresSettlementRepository.completeSQL : String :=
  "UPDATE custodian.settlements SET status = $2, completed_at = $3 WHERE settlement_id = $1"

/-- The statement of `PostgresSettlementRepository.Cancel`. -/
def PostgresSettlementRepository.cancelSQL : String :=
  "UPDATE custodian.settlements SET status = $2 WHERE settlement_id = $1"

/-- The statement of `PostgresBalanceRepository.Upsert`. -/
def PostgresBalanceRepository.upsertSQL : String :=
  "\n\t\tINSERT INTO custodian.balances (\n" ++
  "\t\t\tbalance_id, account_id, currency, available_balance, locked_balance, total_balance, last_updated, metadata\n" ++
  "\t\t) VALUES ($1, $2, $3, $4, $5, $6, $7, $8)\n" ++
  "\t\tON CONFLICT (account_id, currency)\n" ++
  "\t\tDO UPDATE SET\n" ++
  "\t\t\tavailable_balance = EXCLUDED.available_balance,\n" ++
  "\t\t\tlocked_balance = EXCLUDED.locked_balance,\n" ++
  "\t\t\ttotal_balance = EXCLUDED.total_balance,\n" ++
  "\t\t\tlast_updated = EXCLUDED.last_updated,\n" ++
  "\t\t\tmetadata = EXCLUDED.metadata\n" ++
  "\t"

/-- The statement of `PostgresBalanceRepository.GetByID`. -/
def PostgresBalanceRepository.getByIDSQL : String :=
  "\n\t\tSELECT balance_id, account_id, currency, available_balance, locked_balance, total_balance, last_updated, metadata\n" ++
  "\t\tFROM custodian.balances\n" ++
  "\t\tWHERE balance_id = $1\n" ++
  "\t"

/-- The statement of `PostgresBalanceRepository.GetByAccountAndCurrency`. -/
def PostgresBalanceRepository.getByAccountAndCurrencySQL : String :=
  "\n\t\tSELECT balance_id, account_id, currency, available_balance, locked_balance, total_balance, last_updated, metadata\n" ++
  "\t\tFROM custodian.balances\n" ++
  "\t\tWHERE account_id = $1 AND currency = $2\n" ++
  "\t"

/-- The base text of the statement of `PostgresBalanceRepository.Query`. -/
def PostgresBalanceRepository.queryBaseSQL : String :=
  "\n\t\tSELECT balance_id, account_id, currency, available_balance, locked_balance, total_balance, last_updated, metadata\n" ++
  "\t\tFROM custodian.balances\n" ++
  "\t\tWHERE 1=1\n" ++
  "\t"

/-- The statement of `PostgresBalanceRepository.UpdateAvailableBalance`. -/
def PostgresBalanceRepository.updateAvailableBalanceSQL : String :=
  "\n\t\tUPDATE custodian.balances\n" ++
  "\t\tSET available_balance = $2, locked_balance = $3, total_balance = $2 + $3, last_updated = $4\n" ++
  "\t\tWHERE balance_id = $1\n" ++
  "\t"

/-- The statement of `PostgresBalanceRepository.AtomicUpdate`. -/
def PostgresBalanceRepository.atomicUpdateSQL : String :=
  "\n\t\tUPDATE custodian.balances\n" ++
  "\t\tSET available_balance = available_balance + $3,\n" ++
  "\t\t\tlocked_balance = locked_balance + $4,\n" ++
  "\t\t\ttotal_balance = available_balance + $3 + locked_balance + $4,\n" ++
  "\t\t\tlast_updated = $5\n" ++
  "\t\tWHERE account_id = $1 AND currency = $2\n" ++
  "\t"

/-- The statement and arguments `PostgresPositionRepository.Query` hands to
the store. -/
def PostgresPositionRepository.buildQuery (query : PositionQuery) : QueryBuild :=
  let b : QueryBuild :=
    { sqlQuery := PostgresPositionRepository.queryBaseSQL, args := [], argCount := 1 }
  let b := b.addFilter " AND account_id = $" (query.AccountID.map SqlArg.text)
  let b := b.addFilter " AND symbol = $" (query.Symbol.map SqlArg.text)
  let b := b.addFilter " AND quantity >= $" (query.MinQuantity.map SqlArg.float)
  let b := b.addFilter " AND currency = $" (query.Currency.map SqlArg.text)
  let b := b.addFilter " AND last_updated > $" (query.UpdatedAfter.map SqlArg.time)
  let b :=
    if query.SortBy ≠ "" then
      let sortOrder := if upper query.SortOrder = "DESC" then "DESC" else "ASC"
      b.addText (" ORDER BY " ++ query.SortBy ++ " " ++ sortOrder)
    else
      b.addText " ORDER BY last_updated DESC"
  let b := if query.Limit > 0 then b.addParam " LIMIT $" (.int query.Limit) else b
  let b := if query.Offset > 0 then b.addParam " OFFSET $" (.int query.Offset) else b
  b

/-- The statement and arguments `PostgresSettlementRepository.Query` hands
to the store. -/
def PostgresSettlementRepository.buildQuery (query : SettlementQuery) : QueryBuild :=
  let b : QueryBuild :=
    { sqlQuery := PostgresSettlementRepository.queryBaseSQL, args := [], argCount := 1 }
  let b := b.addFilter " AND account_id = $" (query.AccountID.map SqlArg.text)
  let b := b.addFilter " AND status = $" (query.Status.map SqlArg.text)
  let b := b.addFilter " AND settlement_type = $" (query.SettlementType.map SqlArg.text)
  let b := b.addText " ORDER BY initiated_at DESC"
  let b := if query.Limit > 0 then b.addParam " LIMIT $" (.int query.Limit) else b
  b

/-- The statement and arguments `PostgresBalanceRepository.Query` hands to
the store. -/
def PostgresBalanceRepository.buildQuery (query : BalanceQuery) : QueryBuild :=
  let b : QueryBuild :=
    { sqlQuery := PostgresBalanceRepository.queryBaseSQL, args := [], argCount := 1 }
  let b := b.addFilter " AND account_id = $" (query.AccountID.map SqlArg.text)
  let b := b.addFilter " AND currency = $" (query.Currency.map SqlArg.text)
  let b := b.addText " ORDER BY last_updated DESC"
  let b := if query.Limit > 0 then b.addParam " LIMIT $" (.int query.Limit) else b
  b

/-- The descriptor `PostgresPositionRepository.GetByAccount` builds. -/
def PostgresPositionRepository.getByAccountQuery (accountID : String) : PositionQuery :=
  { AccountID := some accountID, Symbol := none, MinQuantity := none, Currency := none,
    UpdatedAfter := none, Limit := 1000, Offset := 0, SortBy := "", SortOrder := "" }

/-- The descriptor `PostgresSettlementRepository.GetPendingByAccount` builds. -/
def PostgresSettlementRepository.getPendingByAccountQuery (accountID : String) :
    SettlementQuery :=
  { AccountID := some accountID, Status := some SettlementStatusPending,
    SettlementType := none, Symbol := none, InitiatedAfter := none, Limit := 1000,
    Offset := 0, SortBy := "", SortOrder := "" }

/-- The descriptor `PostgresBalanceRepository.GetByAccount` builds. -/
def PostgresBalanceRepository.getByAccountQuery (accountID : String) : BalanceQuery :=
  { AccountID := some accountID, Currency := none, MinBalance := none,
    UpdatedAfter := none, Limit := 1000, Offset := 0, SortBy := "", SortOrder := "" }

/-- The methods of the position repository, with what the statement text
depends on. -/
inductive PositionOp where
  | Create
  | GetByID
  | GetByAccountAndSymbol
  | Query (query : PositionQuery)
  | Update
  | UpdateAvailableQuantity
  | Delete
  | GetByAccount (accountID : String)
deriving DecidableEq, Repr

/-- The methods of the settlement repository. -/
inductive SettlementOp where
  | Create
  | GetByID
  | GetByExternalID
  | Query (query : SettlementQuery)
  | UpdateStatus
  | Complete
  | Cancel
  | GetPendingByAccount (accountID : String)
deriving DecidableEq, Repr

/-- The methods of the balance repository. -/
inductive BalanceOp where
  | Upsert
  | GetByID
  | GetByAccountAndCurrency
  | Query (query : BalanceQuery)
  | UpdateAvailableBalance
  | GetByAccount (accountID : String)
  | AtomicUpdate
deriving DecidableEq, Repr

/-- The statement text a method of the position repository sends. -/
def PostgresPositionRepository.statement (_r : PostgresPositionRepository) :
    PositionOp → String
  | .Create => PostgresPositionRepository.createSQL
  | .GetByID => PostgresPositionRepository.getByIDSQL
  | .GetByAccountAndSymbol => PostgresPositionRepository.getByAccountAndSymbolSQL
  | .Query query => (PostgresPositionRepository.buildQuery query).sqlQuery
  | .Update => PostgresPositionRepository.updateSQL
  | .UpdateAvailableQuantity => PostgresPositionRepository.updateAvailableQuantitySQL
  | .Delete => PostgresPositionRepository.deleteSQL
  | .GetByAccount accountID =>
    (PostgresPositionRepository.buildQuery
      (PostgresPositionRepository.getByAccountQuery accountID)).sqlQuery

/-- The statement text a method of the settlement repository sends. -/
def PostgresSettlementRepository.statement (_r : PostgresSettlementRepository) :
    SettlementOp → String
  | .Create => PostgresSettlementRepository.createSQL
  | .GetByID => PostgresSettlementRepository.getByIDSQL
  | .GetByExternalID => PostgresSettlementRepository.getByExternalIDSQL
  | .Query query => (PostgresSettlementRepository.buildQuery query).sqlQuery
  | .UpdateStatus => PostgresSettlementRepository.updateStatusSQL
  | .Complete => PostgresSettlementRepository.completeSQL
  | .Cancel => PostgresSettlementRepository.cancelSQL
  | .GetPendingByAccount accountID =>
    (PostgresSettlementRepository.buildQuery
      (PostgresSettlementRepository.getPendingByAccountQuery accountID)).sqlQuery

/-- The statement text a method of the balance repository sends. -/
def PostgresBalanceRepository.statement (_r : PostgresBalanceRepository) :
    BalanceOp → String
  | .Upsert => PostgresBalanceRepository.upsertSQL
  | .GetByID => PostgresBalanceRepository.getByIDSQL
  | .GetByAccountAndCurrency => PostgresBalanceRepository.getByAccountAndCurrencySQL
  | .Query query => (PostgresBalanceRepository.buildQuery query).sqlQuery
  | .UpdateAvailableBalance => PostgresBalanceRepository.updateAvailableBalanceSQL
  | .GetByAccount accountID =>
    (PostgresBalanceRepository.buildQuery
      (PostgresBalanceRepository.getByAccountQuery accountID)).sqlQuery
  | .AtomicUpdate => PostgresBalanceRepository.atomicUpdateSQL

/-- A statement text names a table: the name occurs in it. -/
def mentions (stmt name : String) : Prop :=
  name.data <:+: stmt.data

instance (stmt name : String) : Decidable (mentions stmt name) := by
  unfold mentions; infer_instance

/-! ## Fixtures -/

def logger0 : Logger := ⟨0⟩

/-- Store-client constructors that always succeed. -/
def envUp : Env :=
  { NewPostgresDB := fun _ _ => .ok ⟨⟨1⟩⟩
    NewRedisClient := fun _ _ => .ok ⟨⟨2⟩⟩ }

/-- Store-client constructors of which the Redis one fails. -/
def envRedisDown : Env :=
  { NewPostgresDB := fun _ _ => .ok ⟨⟨1⟩⟩
    NewRedisClient := fun _ _ => .error "invalid redis URL" }

/-- First case of `TestNewCustodianDataAdapter`: no schema name given. -/
def cfgKomainu : Config :=
  { ServiceName := "custodian-simulator", ServiceInstanceName := "custodian-Komainu",
    SchemaName := "", RedisNamespace := "custodian:Komainu", PostgresURL := "",
    RedisURL := "", ServiceDiscoveryNamespace := "", CacheNamespace := "",
    Environment := "" }

/-- Third case of `TestNewCustodianDataAdapter`: both names given. -/
def cfgExplicit : Config :=
  { ServiceName := "custom-service", ServiceInstanceName := "custom-instance",
    SchemaName := "explicit_schema", RedisNamespace := "explicit:namespace",
    PostgresURL := "", RedisURL := "", ServiceDiscoveryNamespace := "",
    CacheNamespace := "", Environment := "" }

/-- A configuration of the Komainu tenant with both stores configured. -/
def cfgKomainuStores : Config :=
  { ServiceName := "custodian-simulator", ServiceInstanceName := "custodian-Komainu",
    SchemaName := "custodian_komainu", RedisNamespace := "custodian:Komainu",
    PostgresURL := "postgres://localhost:5432/trading_ecosystem",
    RedisURL := "redis://localhost:6379/0", ServiceDiscoveryNamespace := "registry",
    CacheNamespace := "cache", Environment := "testing" }

/-- A configuration of the Copper tenant with both stores configured. -/
def cfgCopperStores : Config :=
  { ServiceName := "custodian-simulator", ServiceInstanceName := "custodian-Copper",
    SchemaName := "custodian_copper", RedisNamespace := "custodian:Copper",
    PostgresURL := "postgres://localhost:5432/trading_ecosystem",
    RedisURL := "redis://localhost:6379/0", ServiceDiscoveryNamespace := "registry",
    CacheNamespace := "cache", Environment := "testing" }

/-- A configuration with the Redis store only. -/
def cfgRedisOnly : Config :=
  { ServiceName := "custodian-simulator", ServiceInstanceName := "custodian-Komainu",
    SchemaName := "custodian_komainu", RedisNamespace := "custodian:Komainu",
    PostgresURL := "", RedisURL := "redis://localhost:6379/0",
    ServiceDiscoveryNamespace := "registry", CacheNamespace := "cache",
    Environment := "testing" }

/-- A configuration with the PostgreSQL store only. -/
def cfgPostgresOnly : Config :=
  { ServiceName := "custodian-simulator", ServiceInstanceName := "custodian-Komainu",
    SchemaName := "custodian_komainu", RedisNamespace := "custodian:Komainu",
    PostgresURL := "postgres://localhost:5432/trading_ecosystem", RedisURL := "",
    ServiceDiscoveryNamespace := "registry", CacheNamespace := "cache",
    Environment := "testing" }

/-- An adapter with both store clients attached and no repository. -/
def adapterBoth : CustodianDataAdapter :=
  { config := cfgKomainuStores, logger := logger0, postgresDB := some ⟨⟨1⟩⟩,
    redisClient := some ⟨⟨2⟩⟩, positionRepo := none, settlementRepo := none,
    balanceRepo := none, serviceDiscoveryRepo := none, cacheRepo := none }

/-- An instance name of the form `base-Vendor` or `base-Vendor-Extra...`. -/
def multiInstanceName (base vendor : String) (extra : Option String) : String :=
  match extra with
  | none => base ++ "-" ++ vendor
  | some e => base ++ "-" ++ vendor ++ "-" ++ e

/-- An adapter with the Redis client only. -/
def adapterRedisOnly : CustodianDataAdapter :=
  { config := cfgRedisOnly, logger := logger0, postgresDB := none,
    redisClient := some ⟨⟨2⟩⟩, positionRepo := none, settlementRepo := none,
    balanceRepo := none, serviceDiscoveryRepo := none, cacheRepo := none }

/-- An adapter with no store client. -/
def adapterNone : CustodianDataAdapter :=
  { config := cfgKomainu, logger := logger0, postgresDB := none, redisClient := none,
    positionRepo := none, settlementRepo := none, balanceRepo := none,
    serviceDiscoveryRepo := none, cacheRepo := none }

/-! ## Domain records -/

/-- The struct `models.Position`; the metadata bytes are kept as text. -/
structure Position where
  PositionID : String
  AccountID : String
  Symbol : String
  Quantity : Float64
  AvailableQuantity : Float64
  LockedQuantity : Float64
  AverageCost : Option Float64
  MarketValue : Option Float64
  Currency : String
  LastUpdated : Time
  CreatedAt : Time
  Metadata : String
deriving DecidableEq, Repr

/-- The struct `models.Settlement`; a status and a settlement type are
strings. -/
structure Settlement where
  SettlementID : String
  ExternalID : Option String
  SettlementType : String
  AccountID : String
  Symbol : String
  Quantity : Float64
  Status : String
  SourceAccount : Option String
  DestinationAccount : Option String
  InitiatedAt : Time
  CompletedAt : Option Time
  ExpectedSettlementDate : Option Time
  Metadata : String
deriving DecidableEq, Repr

/-- The struct `models.Balance`. -/
structure Balance where
  BalanceID : String
  AccountID : String
  Currency : String
  AvailableBalance : Float64
  LockedBalance : Float64
  TotalBalance : Float64
  LastUpdated : Time
  Metadata : String
deriving DecidableEq, Repr

/-! ## Answers of the store to a repository call -/

/-- What `QueryRowContext(...).Scan(...)` reports: the scanned record, the
error `sql.ErrNoRows`, or another error. -/
inductive RowAnswer (α : Type) where
  | row (record : α)
  | noRows
  | failed (err : String)
deriving DecidableEq, Repr

/-- What `ExecContext` reports: an error, or a result whose `RowsAffected()`
gives a count and an error. -/
inductive ExecAnswer where
  | failed (err : String)
  | done (rowsAffected : Int) (rowsAffectedErr : Option String)
deriving DecidableEq, Repr

/-- The rows a successful `QueryContext` gives: for each row in turn what
`Scan` reports, and the error of the iteration, `rows.Err()`. -/
structure Rows (α : Type) where
  scans : List (Except String α)
  iterErr : Option String

/-- What a method with the results `(*T, error)` or `([]*T, error)` returns,
and what it logs; `value = none` is the nil pointer or nil slice. -/
structure Outcome (α : Type) where
  value : Option α
  err : Option String
  log : List Event
deriving DecidableEq, Repr

/-- The shape shared by the single-row getters: `sql.ErrNoRows` gives the
not-found error, any other error is logged and wrapped, a row is
returned. -/
def scanRow {α : Type} (notFound logMsg failMsg : String) : RowAnswer α → Outcome α
  | .noRows => { value := none, err := some notFound, log := [] }
  | .failed err =>
    { value := none, err := some (failMsg ++ err), log := [.errorWithError err logMsg] }
  | .row record => { value := some record, err := none, log := [] }

/-- The shape shared by `Create` and `Upsert`: an error of the statement is
logged and wrapped. -/
def execPlain (logMsg failMsg : String) : ExecAnswer → Option String × List Event
  | .failed err => (some (failMsg ++ err), [.errorWithError err logMsg])
  | .done _ _ => (none, [])

/-- The shape shared by the key-targeted mutations: an error of the
statement is logged and wrapped; otherwise `rowsAffected, _ :=
result.RowsAffected()` and a count of zero gives the not-found error. -/
def execKeyed (logMsg failMsg notFound : String) : ExecAnswer → Option String × List Event
  | .failed err => (some (failMsg ++ err), [.errorWithError err logMsg])
  | .done rowsAffected _ =>
    if rowsAffected = 0 then (some notFound, []) else (none, [])

/-- The loop `for rows.Next()`: the scanned records, or the first scan
error. -/
def scanRows {α : Type} : List (Except String α) → Except String (List α)
  | [] => .ok []
  | .error err :: _ => .error err
  | .ok record :: rest =>
    match scanRows rest with
    | .error err => .error err
    | .ok records => .ok (record :: records)

/-- The shape shared by the `Query` methods after the statement is built:
an error of `QueryContext` is logged and wrapped; the list starts as the
empty, non-nil slice and gets every scanned row; a scan error is logged and
wrapped. -/
def collectRows {α : Type} (logQuery failQuery logScan failScan : String) :
    Except String (Rows α) → Outcome (List α)
  | .error err =>
    { value := none, err := some (failQuery ++ err), log := [.errorWithError err logQuery] }
  | .ok rows =>
    match scanRows rows.scans with
    | .error err =>
      { value := none, err := some (failScan ++ err), log := [.errorWithError err logScan] }
    | .ok records => { value := some records, err := none, log := [] }

/-! ## Methods of the position repository -/

def PostgresPositionRepository.Create (ans : ExecAnswer) : Option String × List Event :=
  execPlain "Failed to create position" "failed to create position: " ans

def PostgresPositionRepository.GetByID (positionID : String) (ans : RowAnswer Position) :
    Outcome Position :=
  scanRow ("position not found: " ++ positionID) "Failed to get position by ID"
    "failed to get position: " ans

def PostgresPositionRepository.GetByAccountAndSymbol (accountID symbol : String)
    (ans : RowAnswer Position) : Outcome Position :=
  scanRow ("position not found for account " ++ accountID ++ " and symbol " ++ symbol)
    "Failed to get position by account and symbol" "failed to get position: " ans

def PostgresPositionRepository.Query (_query : PositionQuery)
    (ans : Except String (Rows Position)) : Outcome (List Position) :=
  collectRows "Failed to query positions" "failed to query positions: "
    "Failed to scan position row" "failed to scan position: " ans

def PostgresPositionRepository.Update (positionID : String) (ans : ExecAnswer) :
    Option String × List Event :=
  execKeyed "Failed to update position" "failed to update position: "
    ("position not found: " ++ positionID) ans

def PostgresPositionRepository.UpdateAvailableQuantity (positionID : String)
    (ans : ExecAnswer) : Option String × List Event :=
  execKeyed "Failed to update available quantity" "failed to update available quantity: "
    ("position not found: " ++ positionID) ans

def PostgresPositionRepository.Delete (positionID : String) (ans : ExecAnswer) :
    Option String × List Event :=
  execKeyed "Failed to delete position" "failed to delete position: "
    ("position not found: " ++ positionID) ans

/-! ## Methods of the settlement repository -/

def PostgresSettlementRepository.Create (ans : ExecAnswer) : Option String × List Event :=
  execPlain "Failed to create settlement" "failed to create settlement: " ans

def PostgresSettlementRepository.GetByID (settlementID : String)
    (ans : RowAnswer Settlement) : Outcome Settlement :=
  scanRow ("settlement not found: " ++ settlementID) "Failed to get settlement"
    "failed to get settlement: " ans

def PostgresSettlementRepository.GetByExternalID (externalID : String)
    (ans : RowAnswer Settlement) : Outcome Settlement :=
  scanRow ("settlement not found with external ID: " ++ externalID)
    "Failed to get settlement by external ID" "failed to get settlement: " ans

def PostgresSettlementRepository.Query (_query : SettlementQuery)
    (ans : Except String (Rows Settlement)) : Outcome (List Settlement) :=
  collectRows "Failed to query settlements" "failed to query settlements: "
    "Failed to scan settlement" "failed to scan settlement: " ans

def PostgresSettlementRepository.UpdateStatus (settlementID : String) (ans : ExecAnswer) :
    Option String × List Event :=
  execKeyed "Failed to update settlement status" "failed to update settlement status: "
    ("settlement not found: " ++ settlementID) ans

def PostgresSettlementRepository.Complete (settlementID : String) (ans : ExecAnswer) :
    Option String × List Event :=
  execKeyed "Failed to complete settlement" "failed to complete settlement: "
    ("settlement not found: " ++ settlementID) ans

def PostgresSettlementRepository.Cancel (settlementID : String) (ans : ExecAnswer) :
    Option String × List Event :=
  execKeyed "Failed to cancel settlement" "failed to cancel settlement: "
    ("settlement not found: " ++ settlementID) ans

/-! ## Methods of the balance repository -/

def PostgresBalanceRepository.Upsert (ans : ExecAnswer) : Option String × List Event :=
  execPlain "Failed to upsert balance" "failed to upsert balance: " ans

def PostgresBalanceRepository.GetByID (balanceID : String) (ans : RowAnswer Balance) :
    Outcome Balance :=
  scanRow ("balance not found: " ++ balanceID) "Failed to get balance"
    "failed to get balance: " ans

def PostgresBalanceRepository.GetByAccountAndCurrency (accountID currency : String)
    (ans : RowAnswer Balance) : Outcome Balance :=
  scanRow ("balance not found for account " ++ accountID ++ " and currency " ++ currency)
    "Failed to get balance" "failed to get balance: " ans

def PostgresBalanceRepository.Query (_query : BalanceQuery)
    (ans : Except String (Rows Balance)) : Outcome (List Balance) :=
  collectRows "Failed to query balances" "failed to query balances: "
    "Failed to scan balance" "failed to scan balance: " ans

def PostgresBalanceRepository.UpdateAvailableBalance (balanceID : String)
    (ans : ExecAnswer) : Option String × List Event :=
  execKeyed "Failed to update available balance" "failed to update available balance: "
    ("balance not found: " ++ balanceID) ans

def PostgresBalanceRepository.AtomicUpdate (accountID currency : String)
    (ans : ExecAnswer) : Option String × List Event :=
  execKeyed "Failed to atomic update balance" "failed to atomic update balance: "
    ("balance not found for account " ++ accountID ++ " and currency " ++ currency) ans

/-! ## The relational store -/

/-- Modelled from the spec: the tables of the relational store are declared
outside the sources.  Section 6: one table each for positions, settlements
and balances, with the fields of the records; an identifier is unique, and so
are (account, symbol) for positions and (account, currency) for balances. -/
structure Store where
  positions : List Position
  settlements : List Settlement
  balances : List Balance
deriving DecidableEq, Repr

/-- The rows an `UPDATE ... WHERE` leaves, and how many it has changed. -/
def updateWhere {α : Type} (hit : α → Bool) (set : α → α) (rows : List α) : List α × Int :=
  (rows.map (fun row => if hit row then set row else row), ((rows.filter hit).length : Int))

/-- The rows a `DELETE ... WHERE` leaves, and how many it has removed. -/
def deleteWhere {α : Type} (hit : α → Bool) (rows : List α) : List α × Int :=
  (rows.filter (fun row => !hit row), ((rows.filter hit).length : Int))

/-- What a `SELECT ... WHERE` read through `QueryRowContext(...).Scan` gives:
the first row that matches, or `sql.ErrNoRows`. -/
def selectRow {α : Type} (hit : α → Bool) (rows : List α) : RowAnswer α :=
  match rows.find? hit with
  | some row => .row row
  | none => .noRows

/-- The error text of a unique-constraint violation. -/
def uniqueViolation : String := "duplicate key value violates unique constraint"

/-- Modelled from the spec: the store executing the `INSERT` of
`PostgresPositionRepository.Create`: a row whose identifier, or whose
account and symbol, is already stored is rejected (sections 4.4 and 6);
otherwise the twelve columns are stored as sent. -/
def Store.insertPosition (s : Store) (p : Position) : ExecAnswer × Store :=
  if s.positions.any (fun row => row.PositionID == p.PositionID
      || (row.AccountID == p.AccountID && row.Symbol == p.Symbol)) then
    (.failed uniqueViolation, s)
  else
    (.done 1 none, { s with positions := s.positions ++ [p] })

/-- Modelled from the spec: the store executing the `SELECT` of
`PostgresPositionRepository.GetByID`. -/
def Store.selectPositionByID (s : Store) (positionID : String) : RowAnswer Position :=
  selectRow (fun row => row.PositionID == positionID) s.positions

/-- Modelled from the spec: the store executing the `UPDATE` of
`PostgresPositionRepository.Update`: the rows with the identifier get the ten
columns of the `SET` list as sent; `position_id` and `created_at` stay.  The
statement is rejected when a row is hit and another row already has the
account and symbol sent (section 6). -/
def Store.updatePosition (s : Store) (p : Position) : ExecAnswer × Store :=
  if s.positions.any (fun row => row.PositionID == p.PositionID)
      && s.positions.any (fun row => row.PositionID != p.PositionID
          && row.AccountID == p.AccountID && row.Symbol == p.Symbol) then
    (.failed uniqueViolation, s)
  else
    let r := updateWhere (fun row => row.PositionID == p.PositionID)
      (fun row => { p with PositionID := row.PositionID, CreatedAt := row.CreatedAt })
      s.positions
    (.done r.2 none, { s with positions := r.1 })

/-- Modelled from the spec: the store executing the `UPDATE` of
`PostgresPositionRepository.UpdateAvailableQuantity`. -/
def Store.updatePositionQuantities (s : Store) (positionID : String)
    (availableQty lockedQty : Float64) (now : Time) : ExecAnswer × Store :=
  let r := updateWhere (fun row => row.PositionID == positionID)
    (fun row => { row with AvailableQuantity := availableQty, LockedQuantity := lockedQty,
                           LastUpdated := now })
    s.positions
  (.done r.2 none, { s with positions := r.1 })

/-- Modelled from the spec: the store executing the `DELETE` of
`PostgresPositionRepository.Delete`. -/
def Store.deletePosition (s : Store) (positionID : String) : ExecAnswer × Store :=
  let r := deleteWhere (fun row => row.PositionID == positionID) s.positions
  (.done r.2 none, { s with positions := r.1 })

/-- Modelled from the spec: the store executing the `UPDATE` of
`PostgresSettlementRepository.UpdateStatus` and `Cancel`: `SET status = $2`. -/
def Store.updateSettlementStatus (s : Store) (settlementID status : String) :
    ExecAnswer × Store :=
  let r := updateWhere (fun row => row.SettlementID == settlementID)
    (fun row => { row with Status := status }) s.settlements
  (.done r.2 none, { s with settlements := r.1 })

/-- Modelled from the spec: the store executing the `UPDATE` of
`PostgresSettlementRepository.Complete`:
`SET status = $2, completed_at = $3`. -/
def Store.completeSettlement (s : Store) (settlementID status : String) (now : Time) :
    ExecAnswer × Store :=
  let r := updateWhere (fun row => row.SettlementID == settlementID)
    (fun row => { row with Status := status, CompletedAt := some now }) s.settlements
  (.done r.2 none, { s with settlements := r.1 })

/-- Modelled from the spec: the store executing the `UPDATE` of
`PostgresBalanceRepository.UpdateAvailableBalance`; `add` is the addition
of the store on the column values (`total_balance = $2 + $3`). -/
def Store.updateBalanceAmounts (add : Float64 → Float64 → Float64) (s : Store)
    (balanceID : String) (availableBalance lockedBalance : Float64) (now : Time) :
    ExecAnswer × Store :=
  let r := updateWhere (fun row => row.BalanceID == balanceID)
    (fun row => { row with AvailableBalance := availableBalance,
                           LockedBalance := lockedBalance,
                           TotalBalance := add availableBalance lockedBalance,
                           LastUpdated := now })
    s.balances
  (.done r.2 none, { s with balances := r.1 })

/-- Modelled from the spec: the store executing the `UPDATE` of
`PostgresBalanceRepository.AtomicUpdate`; every right-hand side reads the
row as it was before the statement, and `add` is the addition of the store
on the column values. -/
def Store.atomicUpdateBalance (add : Float64 → Float64 → Float64) (s : Store)
    (accountID currency : String) (availableDelta lockedDelta : Float64) (now : Time) :
    ExecAnswer × Store :=
  let r := updateWhere (fun row => row.AccountID == accountID && row.Currency == currency)
    (fun row => { row with
      AvailableBalance := add row.AvailableBalance availableDelta,
      LockedBalance := add row.LockedBalance lockedDelta,
      TotalBalance :=
        add (add (add row.AvailableBalance availableDelta) row.LockedBalance) lockedDelta,
      LastUpdated := now })
    s.balances
  (.done r.2 none, { s with balances := r.1 })

/-! ## Repository methods run against the store -/

/-- The method `Create` of the position repository on a store: the store
after the call and the returned error. -/
def Store.PositionCreate (s : Store) (position : Position) : Store × Option String :=
  let r := s.insertPosition position
  (r.2, (PostgresPositionRepository.Create r.1).1)

/-- The method `GetByID` of the position repository on a store. -/
def Store.PositionGetByID (s : Store) (positionID : String) : Outcome Position :=
  PostgresPositionRepository.GetByID positionID (s.selectPositionByID positionID)

/-- The method `Update` of the position repository on a store: it sets
`position.LastUpdated = time.Now()` and sends the position. -/
def Store.PositionUpdate (s : Store) (position : Position) (now : Time) :
    Store × Option String :=
  let sent : Position := { position with LastUpdated := now }
  let r := s.updatePosition sent
  (r.2, (PostgresPositionRepository.Update sent.PositionID r.1).1)

/-- The method `UpdateAvailableQuantity` of the position repository on a
store. -/
def Store.PositionUpdateAvailableQuantity (s : Store) (positionID : String)
    (availableQty lockedQty : Float64) (now : Time) : Store × Option String :=
  let r := s.updatePositionQuantities positionID availableQty lockedQty now
  (r.2, (PostgresPositionRepository.UpdateAvailableQuantity positionID r.1).1)

/-- The method `Delete` of the position repository on a store. -/
def Store.PositionDelete (s : Store) (positionID : String) : Store × Option String :=
  let r := s.deletePosition positionID
  (r.2, (PostgresPositionRepository.Delete positionID r.1).1)

/-- The method `UpdateStatus` of the settlement repository on a store. -/
def Store.SettlementUpdateStatus (s : Store) (settlementID status : String) :
    Store × Option String :=
  let r := s.updateSettlementStatus settlementID status
  (r.2, (PostgresSettlementRepository.UpdateStatus settlementID r.1).1)

/-- The method `Complete` of the settlement repository on a store. -/
def Store.SettlementComplete (s : Store) (settlementID : String) (now : Time) :
    Store × Option String :=
  let r := s.completeSettlement settlementID SettlementStatusCompleted now
  (r.2, (PostgresSettlementRepository.Complete settlementID r.1).1)

/-- The method `Cancel` of the settlement repository on a store. -/
def Store.SettlementCancel (s : Store) (settlementID : String) : Store × Option String :=
  let r := s.updateSettlementStatus settlementID SettlementStatusCancelled
  (r.2, (PostgresSettlementRepository.Cancel settlementID r.1).1)

/-- The method `UpdateAvailableBalance` of the balance repository on a
store. -/
def Store.BalanceUpdateAvailableBalance (add : Float64 → Float64 → Float64) (s : Store)
    (balanceID : String) (availableBalance lockedBalance : Float64) (now : Time) :
    Store × Option String :=
  let r := s.updateBalanceAmounts add balanceID availableBalance lockedBalance now
  (r.2, (PostgresBalanceRepository.UpdateAvailableBalance balanceID r.1).1)

/-- The method `AtomicUpdate` of the balance repository on a store. -/
def Store.BalanceAtomicUpdate (add : Float64 → Float64 → Float64) (s : Store)
    (accountID currency : String) (availableDelta lockedDelta : Float64) (now : Time) :
    Store × Option String :=
  let r := s.atomicUpdateBalance add accountID currency availableDelta lockedDelta now
  (r.2, (PostgresBalanceRepository.AtomicUpdate accountID currency r.1).1)

/-- A stored position. -/
def position1 : Position :=
  { PositionID := "pos-1", AccountID := "acc-1", Symbol := "BTC-USD", Quantity := ⟨25⟩,
    AvailableQuantity := ⟨25⟩, LockedQuantity := ⟨0⟩, AverageCost := none,
    MarketValue := none, Currency := "USD", LastUpdated := ⟨100⟩, CreatedAt := ⟨100⟩,
    Metadata := "" }

/-- The same position with new quantities, as a caller hands it to `Update`
with timestamps of its own. -/
def position1Changed : Position :=
  { position1 with Quantity := ⟨30⟩, AvailableQuantity := ⟨30⟩, LastUpdated := ⟨5⟩,
                   CreatedAt := ⟨7⟩ }

/-- A stored settlement. -/
def settlement1 : Settlement :=
  { SettlementID := "set-1", ExternalID := none, SettlementType := "DEPOSIT",
    AccountID := "acc-1", Symbol := "USD", Quantity := ⟨10000⟩,
    Status := SettlementStatusPending, SourceAccount := none, DestinationAccount := none,
    InitiatedAt := ⟨100⟩, CompletedAt := none, ExpectedSettlementDate := none,
    Metadata := "" }

/-- A stored balance. -/
def balance1 : Balance :=
  { BalanceID := "bal-1", AccountID := "acc-1", Currency := "USD",
    AvailableBalance := ⟨100⟩, LockedBalance := ⟨0⟩, TotalBalance := ⟨100⟩,
    LastUpdated := ⟨100⟩, Metadata := "" }

/-- The store without rows. -/
def storeEmpty : Store := { positions := [], settlements := [], balances := [] }

/-- A store with one row in each table. -/
def storeOne : Store :=
  { positions := [position1], settlements := [settlement1], balances := [balance1] }

/-! ## Query statements: what the descriptor asks for -/

/-- The filter steps of `PostgresPositionRepository.Query`, from the base
text to the last optional predicate. -/
def PostgresPositionRepository.applyFilters (query : PositionQuery) : QueryBuild :=
  let b : QueryBuild :=
    { sqlQuery := PostgresPositionRepository.queryBaseSQL, args := [], argCount := 1 }
  let b := b.addFilter " AND account_id = $" (query.AccountID.map SqlArg.text)
  let b := b.addFilter " AND symbol = $" (query.Symbol.map SqlArg.text)
  let b := b.addFilter " AND quantity >= $" (query.MinQuantity.map SqlArg.float)
  let b := b.addFilter " AND currency = $" (query.Currency.map SqlArg.text)
  let b := b.addFilter " AND last_updated > $" (query.UpdatedAfter.map SqlArg.time)
  b

/-- Predicates joined by `AND` behind an always-true base, each with the
next placeholder number, counted from `k`. -/
def andJoined : Nat → List String → String
  | _, [] => ""
  | k, pred :: preds => " AND " ++ pred ++ " $" ++ toString k ++ andJoined (k + 1) preds

/-- The predicates a position descriptor asks for: one for each filter field
that is present, in the order account, symbol, minimum quantity, currency,
updated-after. -/
def PositionQuery.presentPredicates (query : PositionQuery) : List String :=
  (if query.AccountID.isSome then ["account_id ="] else [])
  ++ (if query.Symbol.isSome then ["symbol ="] else [])
  ++ (if query.MinQuantity.isSome then ["quantity >="] else [])
  ++ (if query.Currency.isSome then ["currency ="] else [])
  ++ (if query.UpdatedAfter.isSome then ["last_updated >"] else [])

/-- A position descriptor with no option set. -/
def PositionQuery.empty : PositionQuery :=
  { AccountID := none, Symbol := none, MinQuantity := none, Currency := none,
    UpdatedAfter := none, Limit := 0, Offset := 0, SortBy := "", SortOrder := "" }

/-- A settlement descriptor with no option set. -/
def SettlementQuery.empty : SettlementQuery :=
  { AccountID := none, Status := none, SettlementType := none, Symbol := none,
    InitiatedAfter := none, Limit := 0, Offset := 0, SortBy := "", SortOrder := "" }

/-- A balance descriptor with no option set. -/
def BalanceQuery.empty : BalanceQuery :=
  { AccountID := none, Currency := none, MinBalance := none, UpdatedAfter := none,
    Limit := 0, Offset := 0, SortBy := "", SortOrder := "" }

/-- What the contract of a single-row getter asks of it: on zero rows no
record and an error, which differs from the error of every store failure; on
a store failure no record and an error; on a row that record and no
error. -/
def GetterContract {α : Type} (get : RowAnswer α → Outcome α) : Prop :=
  ((get .noRows).value = none ∧ (get .noRows).err ≠ none)
  ∧ (∀ failure, (get (.failed failure)).value = none
      ∧ (get (.failed failure)).err ≠ none
      ∧ (get (.failed failure)).err ≠ (get .noRows).err)
  ∧ (∀ record, (get (.row record)).value = some record ∧ (get (.row record)).err = none)

/-- A balance descriptor that asks for a minimum balance, an update instant,
an offset and a sort on the currency. -/
def balanceQueryOptions : BalanceQuery :=
  { AccountID := none, Currency := none, MinBalance := some ⟨100⟩,
    UpdatedAfter := some ⟨1700000000000000000⟩, Limit := 0, Offset := 20,
    SortBy := "currency", SortOrder := "ASC" }

/-- A settlement descriptor that asks for a symbol, an initiation instant,
an offset and a sort on the quantity. -/
def settlementQueryOptions : SettlementQuery :=
  { AccountID := none, Status := none, SettlementType := none, Symbol := some "BTC",
    InitiatedAfter := some ⟨1700000000000000000⟩, Limit := 0, Offset := 20,
    SortBy := "quantity", SortOrder := "ASC" }

/-! ## Arguments of the mutating statements -/

/-- A `*string` argument: the nil pointer is bound as `NULL`. -/
def SqlArg.optText : Option String → SqlArg
  | some s => .text s
  | none => .null

/-- A `*float64` argument. -/
def SqlArg.optFloat : Option Float64 → SqlArg
  | some x => .float x
  | none => .null

/-- A `*time.Time` argument. -/
def SqlArg.optTime : Option Time → SqlArg
  | some t => .time t
  | none => .null

/-- The arguments `PostgresPositionRepository.Create` binds to `$1`..`$12`;
`$10` is `last_updated` and `$11` is `created_at`. -/
def PostgresPositionRepository.createArgs (position : Position) : List SqlArg :=
  [.text position.PositionID, .text position.AccountID, .text position.Symbol,
   .float position.Quantity, .float position.AvailableQuantity,
   .float position.LockedQuantity, .optFloat position.AverageCost,
   .optFloat position.MarketValue, .text position.Currency, .time position.LastUpdated,
   .time position.CreatedAt, .bytes position.Metadata]

/-- The arguments `PostgresPositionRepository.Update` binds to `$1`..`$11`,
after `position.LastUpdated = time.Now()`; `$10` is `last_updated`. -/
def PostgresPositionRepository.updateArgs (position : Position) (now : Time) :
    List SqlArg :=
  let position : Position := { position with LastUpdated := now }
  [.text position.PositionID, .text position.AccountID, .text position.Symbol,
   .float position.Quantity, .float position.AvailableQuantity,
   .float position.LockedQuantity, .optFloat position.AverageCost,
   .optFloat position.MarketValue, .text position.Currency, .time position.LastUpdated,
   .bytes position.Metadata]

/-- The arguments `PostgresPositionRepository.UpdateAvailableQuantity`
binds to `$1`..`$4`; `$4` is `last_updated`. -/
def PostgresPositionRepository.updateAvailableQuantityArgs (positionID : String)
    (availableQty lockedQty : Float64) (now : Time) : List SqlArg :=
  [.text positionID, .float availableQty, .float lockedQty, .time now]

/-- The argument `PostgresPositionRepository.Delete` binds. -/
def PostgresPositionRepository.deleteArgs (positionID : String) : List SqlArg :=
  [.text positionID]

/-- The arguments `PostgresSettlementRepository.Create` binds to
`$1`..`$13`; `$10` is `initiated_at`, `$11` is `completed_at` and `$12` is
`expected_settlement_date`. -/
def PostgresSettlementRepository.createArgs (settlement : Settlement) : List SqlArg :=
  [.text settlement.SettlementID, .optText settlement.ExternalID,
   .text settlement.SettlementType, .text settlement.AccountID, .text settlement.Symbol,
   .float settlement.Quantity, .text settlement.Status,
   .optText settlement.SourceAccount, .optText settlement.DestinationAccount,
   .time settlement.InitiatedAt, .optTime settlement.CompletedAt,
   .optTime settlement.ExpectedSettlementDate, .bytes settlement.Metadata]

/-- The arguments `PostgresSettlementRepository.UpdateStatus` binds. -/
def PostgresSettlementRepository.updateStatusArgs (settlementID status : String) :
    List SqlArg :=
  [.text settlementID, .text status]

/-- The arguments `PostgresSettlementRepository.Complete` binds to
`$1`..`$3`; `$3` is `completed_at`. -/
def PostgresSettlementRepository.completeArgs (settlementID : String) (now : Time) :
    List SqlArg :=
  [.text settlementID, .text SettlementStatusCompleted, .time now]

/-- The arguments `PostgresSettlementRepository.Cancel` binds. -/
def PostgresSettlementRepository.cancelArgs (settlementID : String) : List SqlArg :=
  [.text settlementID, .text SettlementStatusCancelled]

/-- The arguments `PostgresBalanceRepository.Upsert` binds to `$1`..`$8`,
after `balance.LastUpdated = time.Now()`; `$7` is `last_updated`. -/
def PostgresBalanceRepository.upsertArgs (balance : Balance) (now : Time) : List SqlArg :=
  let balance : Balance := { balance with LastUpdated := now }
  [.text balance.BalanceID, .text balance.AccountID, .text balance.Currency,
   .float balance.AvailableBalance, .float balance.LockedBalance,
   .float balance.TotalBalance, .time balance.LastUpdated, .bytes balance.Metadata]

/-- The arguments `PostgresBalanceRepository.UpdateAvailableBalance` binds
to `$1`..`$4`; `$4` is `last_updated`. -/
def PostgresBalanceRepository.updateAvailableBalanceArgs (balanceID : String)
    (availableBalance lockedBalance : Float64) (now : Time) : List SqlArg :=
  [.text balanceID, .float availableBalance, .float lockedBalance, .time now]

/-- The arguments `PostgresBalanceRepository.AtomicUpdate` binds to
`$1`..`$5`; `$5` is `last_updated`. -/
def PostgresBalanceRepository.atomicUpdateArgs (accountID currency : String)
    (availableDelta lockedDelta : Float64) (now : Time) : List SqlArg :=
  [.text accountID, .text currency, .float availableDelta, .float lockedDelta, .time now]

/-! ## List queries against the store -/

/-- Modelled from the spec: the store executing the statement that
`PostgresPositionRepository.Query` builds for the descriptor of
`GetByAccount`, `... AND account_id = $1 ORDER BY last_updated DESC LIMIT $2`:
the rows of the account, the most recently updated first, at most `limit` of
them. -/
def Store.selectPositionsByAccount (s : Store) (accountID : String) (limit : Nat) :
    List Position :=
  ((s.positions.filter (fun row => row.AccountID == accountID)).insertionSort
    (fun a b => b.LastUpdated.unixNano ≤ a.LastUpdated.unixNano)).take limit

/-- Modelled from the spec: the store executing the statement that
`PostgresBalanceRepository.Query` builds for the descriptor of
`GetByAccount`. -/
def Store.selectBalancesByAccount (s : Store) (accountID : String) (limit : Nat) :
    List Balance :=
  ((s.balances.filter (fun row => row.AccountID == accountID)).insertionSort
    (fun a b => b.LastUpdated.unixNano ≤ a.LastUpdated.unixNano)).take limit

/-- The method `GetByAccount` of the position repository on a store: `Query`
with the descriptor of the account and `Limit: 1000`. -/
def Store.PositionGetByAccount (s : Store) (accountID : String) : Outcome (List Position) :=
  let query := PostgresPositionRepository.getByAccountQuery accountID
  PostgresPositionRepository.Query query
    (.ok { scans := (s.selectPositionsByAccount accountID query.Limit.toNat).map .ok,
           iterErr := none })

/-- The method `GetByAccount` of the balance repository on a store. -/
def Store.BalanceGetByAccount (s : Store) (accountID : String) : Outcome (List Balance) :=
  let query := PostgresBalanceRepository.getByAccountQuery accountID
  PostgresBalanceRepository.Query query
    (.ok { scans := (s.selectBalancesByAccount accountID query.Limit.toNat).map .ok,
           iterErr := none })

/-- The position number `i` of one account, each updated later than the one
before. -/
def positionOfAccount (i : Nat) : Position :=
  { position1 with PositionID := "pos-" ++ toString i, Symbol := "SYM-" ++ toString i,
                   LastUpdated := ⟨i⟩ }

/-- A store with 1001 positions of the account `acc-1`. -/
def storeBig : Store :=
  { positions := (List.range 1001).map positionOfAccount, settlements := [], balances := [] }

/-! ## The scenario helpers of the behaviour tests -/

/-- The struct `BDDStep`; the closure `fn` is known by a number. -/
structure BDDStep where
  description : String
  fn : Nat
deriving DecidableEq, Repr

/-- The struct `BDDScenario`. -/
structure BDDScenario where
  givens : List BDDStep
  whens : List BDDStep
  thens : List BDDStep
deriving DecidableEq, Repr

/-- What running a scenario does: a line logged, a step function called. -/
inductive BDDEvent where
  | logged (line : String)
  | called (step : BDDStep)
deriving DecidableEq, Repr

/-- The method `execute`: the givens, the whens, the thens, each logged and
called in the order of its list. -/
def BDDScenario.execute (s : BDDScenario) : List BDDEvent :=
  s.givens.flatMap (fun given => [.logged ("  Given " ++ given.description), .called given])
  ++ s.whens.flatMap (fun when => [.logged ("  When " ++ when.description), .called when])
  ++ s.thens.flatMap (fun step => [.logged ("  Then " ++ step.description), .called step])

/-- The method `Given` of the suite: a new scenario with one given. -/
def Given (description : String) (fn : Nat) : BDDScenario :=
  { givens := [{ description := description, fn := fn }], whens := [], thens := [] }

/-- The method `When`. -/
def BDDScenario.When (s : BDDScenario) (description : String) (fn : Nat) : BDDScenario :=
  { s with whens := s.whens ++ [{ description := description, fn := fn }] }

/-- The method `Then`: the step is added, then the scenario is executed. -/
def BDDScenario.Then (s : BDDScenario) (description : String) (fn : Nat) :
    BDDScenario × List BDDEvent :=
  let s : BDDScenario := { s with thens := s.thens ++ [{ description := description, fn := fn }] }
  (s, s.execute)

/-- The method `And`. -/
def BDDScenario.And (s : BDDScenario) (description : String) (fn : Nat) : BDDScenario :=
  if s.thens.length > 0 then
    { s with thens := s.thens ++ [{ description := description, fn := fn }] }
  else if s.whens.length > 0 then
    { s with whens := s.whens ++ [{ description := description, fn := fn }] }
  else
    { s with givens := s.givens ++ [{ description := description, fn := fn }] }

/-- A call chained on a scenario. -/
inductive BDDCall where
  | When (description : String) (fn : Nat)
  | Then (description : String) (fn : Nat)
  | And (description : String) (fn : Nat)
deriving DecidableEq, Repr

/-- A chain of calls on a scenario: the scenario after the chain and all
that was logged and called. -/
def BDDScenario.chain (s : BDDScenario) : List BDDCall → BDDScenario × List BDDEvent
  | [] => (s, [])
  | .When description fn :: rest => (s.When description fn).chain rest
  | .Then description fn :: rest =>
    let r := s.Then description fn
    let r2 := r.1.chain rest
    (r2.1, r.2 ++ r2.2)
  | .And description fn :: rest => (s.And description fn).chain rest

/-- The step functions called, in order. -/
def calledSteps (events : List BDDEvent) : List BDDStep :=
  events.filterMap (fun event =>
    match event with
    | .called step => some step
    | .logged _ => none)

/-! ## Placeholders of a statement -/

/-- Where the reading of a statement text stands: outside a placeholder,
behind a `$`, or inside the number of a placeholder. -/
inductive ScanState where
  | idle
  | dollar
  | number (n : Nat)
deriving DecidableEq, Repr

/-- The value of a decimal digit. -/
def digitValue (c : Char) : Nat := c.toNat - 48

/-- One character read: the new state, and the placeholder that this
character ends, if any. -/
def scanStep : ScanState → Char → ScanState × List Nat
  | .idle, c => if c = '$' then (.dollar, []) else (.idle, [])
  | .dollar, c =>
    if c = '$' then (.dollar, [])
    else if c.isDigit then (.number (digitValue c), [])
    else (.idle, [])
  | .number n, c =>
    if c.isDigit then (.number (10 * n + digitValue c), [])
    else if c = '$' then (.dollar, [n])
    else (.idle, [n])

/-- A text read from a state: the state at its end and the placeholders
ended inside it. -/
def scanRun : ScanState → List Char → ScanState × List Nat
  | st, [] => (st, [])
  | st, c :: cs =>
    let r := scanStep st c
    let r2 := scanRun r.1 cs
    (r2.1, r.2 ++ r2.2)

/-- The placeholder that the end of the text ends, if any. -/
def scanFlush : ScanState → List Nat
  | .number n => [n]
  | _ => []

/-- The placeholders `$n` of a statement text, in the order they appear. -/
def placeholders (stmt : String) : List Nat :=
  let r := scanRun .idle stmt.data
  r.2 ++ scanFlush r.1

/-- The `ORDER BY` part that `PostgresPositionRepository.Query` appends. -/
def PositionQuery.orderText (query : PositionQuery) : String :=
  if query.SortBy ≠ "" then
    " ORDER BY " ++ query.SortBy ++ " " ++ (if upper query.SortOrder = "DESC" then "DESC" else "ASC")
  else
    " ORDER BY last_updated DESC"

/-- The `LIMIT` and `OFFSET` parts that a `Query` appends when the next
placeholder number is `n`. -/
def pagingText (n : Nat) (limit offset : Bool) : String :=
  (if limit then " LIMIT $" ++ toString n else "")
  ++ (if offset then " OFFSET $" ++ toString (if limit then n + 1 else n) else "")

/-- The arguments a position descriptor asks for: the values of the filters
that are present, in declaration order, then the limit and the offset when
positive. -/
def PositionQuery.expectedArgs (query : PositionQuery) : List SqlArg :=
  (query.AccountID.map SqlArg.text).toList
  ++ (query.Symbol.map SqlArg.text).toList
  ++ (query.MinQuantity.map SqlArg.float).toList
  ++ (query.Currency.map SqlArg.text).toList
  ++ (query.UpdatedAfter.map SqlArg.time).toList
  ++ (if query.Limit > 0 then [SqlArg.int query.Limit] else [])
  ++ (if query.Offset > 0 then [SqlArg.int query.Offset] else [])

/-- The arguments of the clauses the settlement `Query` builds: account,
status, settlement type, then the limit when positive. -/
def SettlementQuery.expectedArgs (query : SettlementQuery) : List SqlArg :=
  (query.AccountID.map SqlArg.text).toList
  ++ (query.Status.map SqlArg.text).toList
  ++ (query.SettlementType.map SqlArg.text).toList
  ++ (if query.Limit > 0 then [SqlArg.int query.Limit] else [])

/-- The arguments of the clauses the balance `Query` builds: account,
currency, then the limit when positive. -/
def BalanceQuery.expectedArgs (query : BalanceQuery) : List SqlArg :=
  (query.AccountID.map SqlArg.text).toList
  ++ (query.Currency.map SqlArg.text).toList
  ++ (if query.Limit > 0 then [SqlArg.int query.Limit] else [])

/-- Two states of a statement under construction with the same text and the
same next placeholder number. -/
def SameText (b1 b2 : QueryBuild) : Prop :=
  b1.sqlQuery = b2.sqlQuery ∧ b1.argCount = b2.argCount

/-- A position descriptor whose sort field is the text `$9`. -/
def positionQueryDollar : PositionQuery :=
  { PositionQuery.empty with SortBy := "$9" }

/-- A position descriptor with two filters, a sort field, a limit and an
offset. -/
def positionQueryA : PositionQuery :=
  { AccountID := some "acc-1", Symbol := none, MinQuantity := some ⟨1⟩, Currency := none,
    UpdatedAfter := none, Limit := 10, Offset := 20, SortBy := "symbol", SortOrder := "desc" }

/-- A position descriptor of the same shape with other values. -/
def positionQueryB : PositionQuery :=
  { AccountID := some "x' OR '1'='1", Symbol := none, MinQuantity := some ⟨7⟩,
    Currency := none, UpdatedAfter := none, Limit := 500, Offset := 3, SortBy := "symbol",
    SortOrder := "desc" }

/-- A balance descriptor with one filter and a limit. -/
def balanceQueryA : BalanceQuery :=
  { AccountID := some "acc-1", Currency := none, MinBalance := none, UpdatedAfter := none,
    Limit := 10, Offset := 0, SortBy := "", SortOrder := "" }

/-- A balance descriptor of the same shape with other values. -/
def balanceQueryB : BalanceQuery :=
  { AccountID := some "x' OR '1'='1", Currency := none, MinBalance := none,
    UpdatedAfter := none, Limit := 500, Offset := 0, SortBy := "", SortOrder := "" }

/-- A settlement descriptor with two filters and a limit. -/
def settlementQueryA : SettlementQuery :=
  { AccountID := some "acc-1", Status := some "PENDING", SettlementType := none,
    Symbol := none, InitiatedAfter := none, Limit := 10, Offset := 0, SortBy := "",
    SortOrder := "" }

/-- A settlement descriptor of the same shape with other values. -/
def settlementQueryB : SettlementQuery :=
  { AccountID := some "x' OR '1'='1", Status := some "FAILED", SettlementType := none,
    Symbol := none, InitiatedAfter := none, Limit := 500, Offset := 0, SortBy := "",
    SortOrder := "" }

set_option maxRecDepth 100000

/-! ## Strings: lemmas -/

theorem splitOn_ne_nil (sep : Char) (l : List Char) : splitOn sep l ≠ [] := by
  induction l with
  | nil => simp [splitOn]
  | cons c cs ih =>
    unfold splitOn
    split
    · simp
    · split
      · simp
      · simp

theorem splitOn_of_not_mem (sep : Char) (l : List Char) (h : sep ∉ l) :
    splitOn sep l = [l] := by
  induction l with
  | nil => simp [splitOn]
  | cons c cs ih =>
    have hc : c ≠ sep := fun e => h (by simp [e])
    have hcs : sep ∉ cs := fun e => h (by simp [e])
    simp [splitOn, hc, ih hcs]

theorem splitOn_append_sep (sep : Char) (l r : List Char) (h : sep ∉ l) :
    splitOn sep (l ++ sep :: r) = l :: splitOn sep r := by
  induction l with
  | nil => simp [splitOn]
  | cons c cs ih =>
    have hc : c ≠ sep := fun e => h (by simp [e])
    have hcs : sep ∉ cs := fun e => h (by simp [e])
    simp [splitOn, hc, ih hcs]

theorem deriveSchemaName_singleton (s i : String) (h : isSingleton s i = true) :
    deriveSchemaName s i = baseToken i := by
  unfold isSingleton at h
  unfold deriveSchemaName baseToken
  rcases ht : tokens i with _ | ⟨t0, _ | ⟨t1, ts⟩⟩
  · simp
  · simp
  · have : i = s := by simpa [ht] using h
    simp [this]

theorem deriveRedisNamespace_singleton (s i : String) (h : isSingleton s i = true) :
    deriveRedisNamespace s i = baseToken i := by
  unfold isSingleton at h
  unfold deriveRedisNamespace baseToken
  rcases ht : tokens i with _ | ⟨t0, _ | ⟨t1, ts⟩⟩
  · simp
  · simp
  · have : i = s := by simpa [ht] using h
    simp [this]


theorem tokens_multiInstanceName (base vendor : String) (extra : Option String)
    (hb : '-' ∉ base.data) (hv : '-' ∉ vendor.data) :
    ∃ rest, tokens (multiInstanceName base vendor extra) = base :: vendor :: rest := by
  cases extra with
  | none =>
    refine ⟨[], ?_⟩
    have hd : (multiInstanceName base vendor none).data = base.data ++ '-' :: vendor.data := by
      simp [multiInstanceName]
    simp [tokens, hd, splitOn_append_sep _ _ _ hb, splitOn_of_not_mem _ _ hv]
  | some e =>
    refine ⟨(splitOn '-' e.data).map String.mk, ?_⟩
    have hd : (multiInstanceName base vendor (some e)).data =
        base.data ++ '-' :: (vendor.data ++ '-' :: e.data) := by
      simp [multiInstanceName]
    simp [tokens, hd, splitOn_append_sep _ _ _ hb, splitOn_append_sep _ _ _ hv]

theorem mentions_append (s t name : String) (h : mentions s name) :
    mentions (s ++ t) name := by
  obtain ⟨p, q, hpq⟩ := h
  exact ⟨p, q ++ t.data, by simp [← hpq]⟩

theorem mentions_addParam (b : QueryBuild) (text : String) (v : SqlArg) (name : String)
    (h : mentions b.sqlQuery name) : mentions (b.addParam text v).sqlQuery name := by
  unfold QueryBuild.addParam
  exact mentions_append _ _ _ (mentions_append _ _ _ h)

theorem mentions_addFilter (b : QueryBuild) (text : String) (v : Option SqlArg)
    (name : String) (h : mentions b.sqlQuery name) :
    mentions (b.addFilter text v).sqlQuery name := by
  cases v with
  | none => exact h
  | some v => exact mentions_addParam b text v name h

theorem mentions_addText (b : QueryBuild) (text : String) (name : String)
    (h : mentions b.sqlQuery name) : mentions (b.addText text).sqlQuery name := by
  unfold QueryBuild.addText
  exact mentions_append _ _ _ h

theorem mentions_ite_addParam (c : Prop) [Decidable c] (b : QueryBuild) (text : String)
    (v : SqlArg) (name : String) (h : mentions b.sqlQuery name) :
    mentions (if c then b.addParam text v else b).sqlQuery name := by
  split_ifs
  · exact mentions_addParam b text v name h
  · exact h

theorem mentions_ite_addText (c : Prop) [Decidable c] (b : QueryBuild) (t1 t2 : String)
    (name : String) (h : mentions b.sqlQuery name) :
    mentions (if c then b.addText t1 else b.addText t2).sqlQuery name := by
  split_ifs
  · exact mentions_addText b t1 name h
  · exact mentions_addText b t2 name h

theorem position_queryBase_mentions :
    mentions PostgresPositionRepository.queryBaseSQL "custodian.positions" := by
  decide

theorem settlement_queryBase_mentions :
    mentions PostgresSettlementRepository.queryBaseSQL "custodian.settlements" := by
  decide

theorem balance_queryBase_mentions :
    mentions PostgresBalanceRepository.queryBaseSQL "custodian.balances" := by
  decide

theorem position_buildQuery_mentions (query : PositionQuery) :
    mentions (PostgresPositionRepository.buildQuery query).sqlQuery "custodian.positions" := by
  unfold PostgresPositionRepository.buildQuery
  apply mentions_ite_addParam
  apply mentions_ite_addParam
  apply mentions_ite_addText
  apply mentions_addFilter
  apply mentions_addFilter
  apply mentions_addFilter
  apply mentions_addFilter
  apply mentions_addFilter
  exact position_queryBase_mentions

theorem settlement_buildQuery_mentions (query : SettlementQuery) :
    mentions (PostgresSettlementRepository.buildQuery query).sqlQuery
      "custodian.settlements" := by
  unfold PostgresSettlementRepository.buildQuery
  apply mentions_ite_addParam
  apply mentions_addText
  apply mentions_addFilter
  apply mentions_addFilter
  apply mentions_addFilter
  exact settlement_queryBase_mentions

theorem balance_buildQuery_mentions (query : BalanceQuery) :
    mentions (PostgresBalanceRepository.buildQuery query).sqlQuery "custodian.balances" := by
  unfold PostgresBalanceRepository.buildQuery
  apply mentions_ite_addParam
  apply mentions_addText
  apply mentions_addFilter
  apply mentions_addFilter
  exact balance_queryBase_mentions

theorem position_statement_mentions (r : PostgresPositionRepository) (op : PositionOp) :
    mentions (r.statement op) "custodian.positions" := by
  cases op with
  | Query query => exact position_buildQuery_mentions query
  | GetByAccount accountID => exact position_buildQuery_mentions _
  | _ => simp only [PostgresPositionRepository.statement]; decide

theorem settlement_statement_mentions (r : PostgresSettlementRepository)
    (op : SettlementOp) : mentions (r.statement op) "custodian.settlements" := by
  cases op with
  | Query query => exact settlement_buildQuery_mentions query
  | GetPendingByAccount accountID => exact settlement_buildQuery_mentions _
  | _ => simp only [PostgresSettlementRepository.statement]; decide

theorem balance_statement_mentions (r : PostgresBalanceRepository) (op : BalanceOp) :
    mentions (r.statement op) "custodian.balances" := by
  cases op with
  | Query query => exact balance_buildQuery_mentions query
  | GetByAccount accountID => exact balance_buildQuery_mentions _
  | _ => simp only [PostgresBalanceRepository.statement]; decide

/-! ## Construction and naming injection -/

/-- C1 (evaluation at the failing input): on the first case of
`TestNewCustodianDataAdapter` (instance `custodian-Komainu`, no schema name,
no store configured) the factory succeeds, calls nothing but the two
warnings, and the configuration it returns still has the empty schema name,
whereas the deriver gives `custodian_komainu` for that service
and instance. -/
theorem factory_leaves_schema_name_empty (env : Env) :
    NewCustodianDataAdapter env (some cfgKomainu) (some logger0) =
      (.ok { config := cfgKomainu, logger := logger0, postgresDB := none,
             redisClient := none, positionRepo := none, settlementRepo := none,
             balanceRepo := none, serviceDiscoveryRepo := none, cacheRepo := none },
       [.warn "PostgreSQL URL not configured, repositories will not be available",
        .warn "Redis URL not configured, cache and service discovery will not be available"])
    ∧ cfgKomainu.SchemaName = ""
    ∧ deriveSchemaName cfgKomainu.ServiceName cfgKomainu.ServiceInstanceName
        = "custodian_komainu" := by
  refine ⟨rfl, rfl, ?_⟩
  decide

/-- The configuration held by a successfully built adapter is the one the
factory was given. -/
theorem factory_config (env : Env) (cfg : Config) (logger : Logger)
    (a : CustodianDataAdapter)
    (h : (NewCustodianDataAdapter env (some cfg) (some logger)).1 = .ok a) :
    a.config = cfg := by
  by_cases hp : cfg.PostgresURL = "" <;> by_cases hr : cfg.RedisURL = "" <;>
    cases hpg : env.NewPostgresDB cfg logger <;>
    cases hrc : env.NewRedisClient cfg logger <;>
    simp [NewCustodianDataAdapter, initPostgres, initRedis, hp, hr, hpg, hrc] at h <;>
    (subst h; rfl)

/-- C2: when both the schema name and the Redis namespace are given, a
successful construction leaves both fields exactly as given, whatever the
service and instance names are. -/
theorem factory_keeps_explicit_names (env : Env) (cfg : Config) (logger : Logger)
    (a : CustodianDataAdapter) (_hs : cfg.SchemaName ≠ "") (_hn : cfg.RedisNamespace ≠ "")
    (h : (NewCustodianDataAdapter env (some cfg) (some logger)).1 = .ok a) :
    a.config.SchemaName = cfg.SchemaName ∧ a.config.RedisNamespace = cfg.RedisNamespace := by
  rw [factory_config env cfg logger a h]
  exact ⟨rfl, rfl⟩

/-- Witness of C2: the third case of `TestNewCustodianDataAdapter`. -/
theorem factory_keeps_explicit_names_witness :
    ∃ a, (NewCustodianDataAdapter envUp (some cfgExplicit) (some logger0)).1 = .ok a
      ∧ a.config.SchemaName = "explicit_schema"
      ∧ a.config.RedisNamespace = "explicit:namespace" :=
  ⟨_, rfl,
    factory_keeps_explicit_names envUp cfgExplicit logger0 _ (by decide) (by decide) rfl⟩

/-! ## Naming deriver -/

/-- C3 (counterexample): the uppercase case of `TestDeriveSchemaName` is a
singleton, and both derivations give `CUSTODIAN`, which is not the lowercase
base token `custodian`. -/
theorem singleton_not_lowercased :
    isSingleton "CUSTODIAN-SIMULATOR" "CUSTODIAN-SIMULATOR" = true
    ∧ lower (baseToken "CUSTODIAN-SIMULATOR") = "custodian"
    ∧ deriveSchemaName "CUSTODIAN-SIMULATOR" "CUSTODIAN-SIMULATOR" = "CUSTODIAN"
    ∧ deriveRedisNamespace "CUSTODIAN-SIMULATOR" "CUSTODIAN-SIMULATOR" = "CUSTODIAN"
    ∧ deriveSchemaName "CUSTODIAN-SIMULATOR" "CUSTODIAN-SIMULATOR"
        ≠ lower (baseToken "CUSTODIAN-SIMULATOR") := by
  decide

/-- C3 (amended): for a singleton pair whose base token is already
lowercase, the schema name and the Redis namespace are the same string, the
lowercase base token. -/
theorem singleton_lowercase_base (serviceName instanceName : String)
    (h : isSingleton serviceName instanceName = true)
    (hl : lower (baseToken instanceName) = baseToken instanceName) :
    deriveSchemaName serviceName instanceName = deriveRedisNamespace serviceName instanceName
    ∧ deriveSchemaName serviceName instanceName = lower (baseToken instanceName) := by
  rw [deriveSchemaName_singleton _ _ h, deriveRedisNamespace_singleton _ _ h, hl]
  exact ⟨rfl, rfl⟩

/-- Witness of C3 (amended): `custodian-data-adapter` as its own instance
gives `custodian` twice, not a two-token form. -/
theorem singleton_lowercase_base_witness :
    deriveSchemaName "custodian-data-adapter" "custodian-data-adapter"
        = deriveRedisNamespace "custodian-data-adapter" "custodian-data-adapter"
    ∧ deriveSchemaName "custodian-data-adapter" "custodian-data-adapter" = "custodian" :=
  singleton_lowercase_base "custodian-data-adapter" "custodian-data-adapter"
    (by decide) (by decide)

/-- C4: for an instance name `base-Vendor` or `base-Vendor-Extra...` that is
not the service name, the schema name is the lowercase base and the lowercase
vendor joined with `_`, and the Redis namespace is the lowercase base and the
vendor as written joined with `:`; what follows the vendor is ignored. -/
theorem multi_instance_names (serviceName base vendor : String) (extra : Option String)
    (hb : '-' ∉ base.data) (hv : '-' ∉ vendor.data)
    (hne : multiInstanceName base vendor extra ≠ serviceName) :
    deriveSchemaName serviceName (multiInstanceName base vendor extra)
        = lower base ++ "_" ++ lower vendor
    ∧ deriveRedisNamespace serviceName (multiInstanceName base vendor extra)
        = lower base ++ ":" ++ vendor := by
  obtain ⟨rest, ht⟩ := tokens_multiInstanceName base vendor extra hb hv
  simp [deriveSchemaName, deriveRedisNamespace, ht, hne]

/-- Witness of C4: `custodian-Komainu-Primary`. -/
theorem multi_instance_names_witness :
    deriveSchemaName "custodian-simulator" "custodian-Komainu-Primary" = "custodian_komainu"
    ∧ deriveRedisNamespace "custodian-simulator" "custodian-Komainu-Primary"
        = "custodian:Komainu" :=
  multi_instance_names "custodian-simulator" "custodian" "Komainu" (some "Primary")
    (by decide) (by decide) (by decide)

/-- C5: for a singleton pair both derivations return the first token of
the instance name with its case unchanged. -/
theorem singleton_passes_through (serviceName instanceName : String)
    (h : isSingleton serviceName instanceName = true) :
    deriveSchemaName serviceName instanceName = baseToken instanceName
    ∧ deriveRedisNamespace serviceName instanceName = baseToken instanceName :=
  ⟨deriveSchemaName_singleton _ _ h, deriveRedisNamespace_singleton _ _ h⟩

/-- Witness of C5: the uppercase service gives `CUSTODIAN` for both. -/
theorem singleton_passes_through_witness :
    deriveSchemaName "CUSTODIAN-SIMULATOR" "CUSTODIAN-SIMULATOR" = "CUSTODIAN"
    ∧ deriveRedisNamespace "CUSTODIAN-SIMULATOR" "CUSTODIAN-SIMULATOR" = "CUSTODIAN" :=
  singleton_passes_through "CUSTODIAN-SIMULATOR" "CUSTODIAN-SIMULATOR" (by decide)

/-! ## Schema qualification of the statements -/

/-- C6 (counterexample): the adapters built for the schema identifiers
`custodian_komainu` and `custodian_copper` both get a position repository
whose `Create` statement addresses `custodian.positions`; the identifier
`custodian_komainu` occurs nowhere in it, and the two adapters send the same
statement text. -/
theorem statement_ignores_schema_name :
    ∃ a1 a2 r1 r2,
      (NewCustodianDataAdapter envUp (some cfgKomainuStores) (some logger0)).1 = .ok a1
      ∧ (NewCustodianDataAdapter envUp (some cfgCopperStores) (some logger0)).1 = .ok a2
      ∧ a1.config.SchemaName = "custodian_komainu"
      ∧ a2.config.SchemaName = "custodian_copper"
      ∧ a1.PositionRepository = some r1
      ∧ a2.PositionRepository = some r2
      ∧ ¬ mentions (r1.statement .Create) "custodian_komainu"
      ∧ mentions (r1.statement .Create) "custodian.positions"
      ∧ r1.statement .Create = r2.statement .Create :=
  ⟨_, _, _, _, rfl, rfl, rfl, rfl, rfl, rfl, by decide, by decide, rfl⟩

/-- C6 (amended): in every successfully built adapter, every statement of
the position, settlement and balance repositories addresses its table under
the fixed schema `custodian`, and a second adapter, built from any other
configuration, sends the same statement text for the same operation. -/
theorem statements_use_custodian_schema (env1 env2 : Env) (cfg1 cfg2 : Config)
    (logger1 logger2 : Logger) (a1 a2 : CustodianDataAdapter)
    (_h1 : (NewCustodianDataAdapter env1 (some cfg1) (some logger1)).1 = .ok a1)
    (_h2 : (NewCustodianDataAdapter env2 (some cfg2) (some logger2)).1 = .ok a2) :
    (∀ r1 r2 op, a1.PositionRepository = some r1 → a2.PositionRepository = some r2 →
        mentions (r1.statement op) "custodian.positions"
        ∧ r1.statement op = r2.statement op)
    ∧ (∀ r1 r2 op, a1.SettlementRepository = some r1 → a2.SettlementRepository = some r2 →
        mentions (r1.statement op) "custodian.settlements"
        ∧ r1.statement op = r2.statement op)
    ∧ (∀ r1 r2 op, a1.BalanceRepository = some r1 → a2.BalanceRepository = some r2 →
        mentions (r1.statement op) "custodian.balances"
        ∧ r1.statement op = r2.statement op) := by
  refine ⟨?_, ?_, ?_⟩
  · intro r1 r2 op _ _
    exact ⟨position_statement_mentions r1 op, by cases op <;> rfl⟩
  · intro r1 r2 op _ _
    exact ⟨settlement_statement_mentions r1 op, by cases op <;> rfl⟩
  · intro r1 r2 op _ _
    exact ⟨balance_statement_mentions r1 op, by cases op <;> rfl⟩

/-- Witness of C6 (amended): the Komainu and Copper adapters, on the
position `Delete`, the settlement `Complete` and the balance `AtomicUpdate`. -/
theorem statements_use_custodian_schema_witness :
    ∃ a1 a2 p1 p2 s1 s2 b1 b2,
      (NewCustodianDataAdapter envUp (some cfgKomainuStores) (some logger0)).1 = .ok a1
      ∧ (NewCustodianDataAdapter envUp (some cfgCopperStores) (some logger0)).1 = .ok a2
      ∧ a1.PositionRepository = some p1 ∧ a2.PositionRepository = some p2
      ∧ a1.SettlementRepository = some s1 ∧ a2.SettlementRepository = some s2
      ∧ a1.BalanceRepository = some b1 ∧ a2.BalanceRepository = some b2
      ∧ (mentions (p1.statement .Delete) "custodian.positions"
          ∧ p1.statement .Delete = p2.statement .Delete)
      ∧ (mentions (s1.statement .Complete) "custodian.settlements"
          ∧ s1.statement .Complete = s2.statement .Complete)
      ∧ (mentions (b1.statement .AtomicUpdate) "custodian.balances"
          ∧ b1.statement .AtomicUpdate = b2.statement .AtomicUpdate) :=
  have h := statements_use_custodian_schema envUp envUp cfgKomainuStores cfgCopperStores
    logger0 logger0 _ _ rfl rfl
  ⟨_, _, _, _, _, _, _, _, rfl, rfl, rfl, rfl, rfl, rfl, rfl, rfl,
    h.1 _ _ .Delete rfl rfl, h.2.1 _ _ .Complete rfl rfl,
    h.2.2 _ _ .AtomicUpdate rfl rfl⟩

/-! ## Construction: validation and degraded mode -/

/-- C7: with a nil configuration or a nil logger the factory returns an
error and no adapter, and its trace is empty: no store client and no
repository has been constructed. -/
theorem factory_rejects_nil (env : Env) (cfg : Option Config) (logger : Option Logger)
    (h : cfg = none ∨ logger = none) :
    ∃ err, NewCustodianDataAdapter env cfg logger = (.error err, []) := by
  cases cfg with
  | none => exact ⟨"config is required", rfl⟩
  | some c =>
    cases logger with
    | none => exact ⟨"logger is required", rfl⟩
    | some l => simp at h

/-- Witness of C7: a configuration without a logger. -/
theorem factory_rejects_nil_witness :
    ∃ err, NewCustodianDataAdapter envUp (some cfgKomainuStores) none = (.error err, []) :=
  factory_rejects_nil envUp (some cfgKomainuStores) none (Or.inr rfl)

/-- C8 (counterexample): with an empty PostgreSQL URL, a Redis URL and a
Redis client constructor that fails, the factory fails. -/
theorem factory_fails_without_postgres :
    cfgRedisOnly.PostgresURL = ""
    ∧ NewCustodianDataAdapter envRedisDown (some cfgRedisOnly) (some logger0) =
        (.error "failed to create Redis client: invalid redis URL",
         [.warn "PostgreSQL URL not configured, repositories will not be available",
          .newRedisClient]) := by
  exact ⟨rfl, rfl⟩

/-- C8 (amended): with an empty PostgreSQL URL the factory succeeds as soon
as the Redis client, when one is configured, is created without error, and
the position, settlement and balance accessors of the adapter are nil;
symmetrically, with an empty Redis URL it succeeds as soon as the PostgreSQL
client, when one is configured, is created without error, and the
service-discovery and cache accessors are nil. -/
theorem factory_degraded_mode (env : Env) (cfg : Config) (logger : Logger) :
    (cfg.PostgresURL = "" →
      (cfg.RedisURL = "" ∨ ∃ rc, env.NewRedisClient cfg logger = .ok rc) →
      ∃ a, (NewCustodianDataAdapter env (some cfg) (some logger)).1 = .ok a
        ∧ a.PositionRepository = none ∧ a.SettlementRepository = none
        ∧ a.BalanceRepository = none)
    ∧ (cfg.RedisURL = "" →
      (cfg.PostgresURL = "" ∨ ∃ pg, env.NewPostgresDB cfg logger = .ok pg) →
      ∃ a, (NewCustodianDataAdapter env (some cfg) (some logger)).1 = .ok a
        ∧ a.ServiceDiscoveryRepository = none ∧ a.CacheRepository = none) := by
  constructor
  · intro hp hr
    by_cases hr0 : cfg.RedisURL = ""
    · simp [NewCustodianDataAdapter, initPostgres, initRedis, hp, hr0,
        CustodianDataAdapter.PositionRepository, CustodianDataAdapter.SettlementRepository,
        CustodianDataAdapter.BalanceRepository]
    · rcases hr with hr | ⟨rc, hrc⟩
      · exact absurd hr hr0
      · simp [NewCustodianDataAdapter, initPostgres, initRedis, hp, hr0, hrc,
          CustodianDataAdapter.PositionRepository, CustodianDataAdapter.SettlementRepository,
          CustodianDataAdapter.BalanceRepository]
  · intro hr hp
    by_cases hp0 : cfg.PostgresURL = ""
    · simp [NewCustodianDataAdapter, initPostgres, initRedis, hr, hp0,
        CustodianDataAdapter.ServiceDiscoveryRepository, CustodianDataAdapter.CacheRepository]
    · rcases hp with hp | ⟨pg, hpg⟩
      · exact absurd hp hp0
      · simp [NewCustodianDataAdapter, initPostgres, initRedis, hr, hp0, hpg,
          CustodianDataAdapter.ServiceDiscoveryRepository, CustodianDataAdapter.CacheRepository]

/-- Witness of C8 (amended): a Redis-only and a PostgreSQL-only
configuration, with constructors that succeed. -/
theorem factory_degraded_mode_witness :
    (∃ a, (NewCustodianDataAdapter envUp (some cfgRedisOnly) (some logger0)).1 = .ok a
        ∧ a.PositionRepository = none ∧ a.SettlementRepository = none
        ∧ a.BalanceRepository = none)
    ∧ (∃ a, (NewCustodianDataAdapter envUp (some cfgPostgresOnly) (some logger0)).1 = .ok a
        ∧ a.ServiceDiscoveryRepository = none ∧ a.CacheRepository = none) :=
  ⟨(factory_degraded_mode envUp cfgRedisOnly logger0).1 rfl (Or.inr ⟨_, rfl⟩),
   (factory_degraded_mode envUp cfgPostgresOnly logger0).2 rfl (Or.inr ⟨_, rfl⟩)⟩

/-! ## Lifecycle -/

/-- C9: `Connect` returns success for every adapter and every answer of the
store clients; the connect of each attached client is called, the Redis one also
when the PostgreSQL one has failed. -/
theorem connect_never_fails (a : CustodianDataAdapter) (o : StoreAnswers) :
    (a.Connect o).1 = none
    ∧ (a.postgresDB ≠ none → Event.postgresConnect ∈ (a.Connect o).2)
    ∧ (a.redisClient ≠ none → Event.redisConnect ∈ (a.Connect o).2) := by
  obtain ⟨config, logger, pg, rc, _, _, _, _, _⟩ := a
  obtain ⟨op, or⟩ := o
  cases pg <;> cases rc <;> cases op <;> cases or <;>
    simp [CustodianDataAdapter.Connect]

/-- Witness of C9: both clients attached, both connects failing. -/
theorem connect_never_fails_witness :
    (adapterBoth.Connect ⟨some "connection refused", some "timeout"⟩).1 = none
    ∧ Event.postgresConnect
        ∈ (adapterBoth.Connect ⟨some "connection refused", some "timeout"⟩).2
    ∧ Event.redisConnect
        ∈ (adapterBoth.Connect ⟨some "connection refused", some "timeout"⟩).2 :=
  have h := connect_never_fails adapterBoth ⟨some "connection refused", some "timeout"⟩
  ⟨h.1, h.2.1 (by decide), h.2.2 (by decide)⟩

/-- C10: `Disconnect` calls disconnect on every attached store client,
whatever the other one answers, and it returns success exactly when every
attached client has disconnected without error. -/
theorem disconnect_calls_all (a : CustodianDataAdapter) (o : StoreAnswers) :
    (a.postgresDB ≠ none → Event.postgresDisconnect ∈ (a.Disconnect o).2)
    ∧ (a.redisClient ≠ none → Event.redisDisconnect ∈ (a.Disconnect o).2)
    ∧ ((a.Disconnect o).1 = none ↔
        (a.postgresDB ≠ none → o.postgres = none)
        ∧ (a.redisClient ≠ none → o.redis = none)) := by
  obtain ⟨config, logger, pg, rc, _, _, _, _, _⟩ := a
  obtain ⟨op, or⟩ := o
  cases pg <;> cases rc <;> cases op <;> cases or <;>
    simp [CustodianDataAdapter.Disconnect, disconnectPostgres, disconnectRedis]

/-- Witness of C10: both clients attached, the PostgreSQL disconnect
failing: the Redis disconnect is still called and the result is an error. -/
theorem disconnect_calls_all_witness :
    Event.postgresDisconnect ∈ (adapterBoth.Disconnect ⟨some "broken pipe", none⟩).2
    ∧ Event.redisDisconnect ∈ (adapterBoth.Disconnect ⟨some "broken pipe", none⟩).2
    ∧ (adapterBoth.Disconnect ⟨some "broken pipe", none⟩).1 ≠ none :=
  have h := disconnect_calls_all adapterBoth ⟨some "broken pipe", none⟩
  ⟨h.1 (by decide), h.2.1 (by decide),
    fun e => absurd ((h.2.2.mp e).1 (by decide)) (by decide)⟩

/-! ## Lifecycle: error texts and health check -/

theorem fmtErrors_one (e : String) : fmtErrors [e] = "[" ++ e ++ "]" := by
  simp [fmtErrors, String.intercalate, String.intercalate.go]

theorem fmtErrors_two (e1 e2 : String) : fmtErrors [e1, e2] = "[" ++ e1 ++ " " ++ e2 ++ "]" := by
  simp [fmtErrors, String.intercalate, String.intercalate.go, String.append_assoc]

/-- C11: the error of `Disconnect` is the text `disconnect errors: [...]`
whose bracket holds exactly the wrapped messages of the stores whose
disconnect failed, PostgreSQL first: only the PostgreSQL message when Redis is
absent or has disconnected (and the Redis disconnect has then been called),
only the Redis message when PostgreSQL is absent or has disconnected, both
when both failed. -/
theorem disconnect_error_text (a : CustodianDataAdapter) (o : StoreAnswers) :
    (∀ e1, a.postgresDB ≠ none → o.postgres = some e1 →
        (a.redisClient = none ∨ o.redis = none) →
        (a.Disconnect o).1
          = some ("disconnect errors: [PostgreSQL disconnect error: " ++ e1 ++ "]")
        ∧ (a.redisClient ≠ none → Event.redisDisconnect ∈ (a.Disconnect o).2))
    ∧ (∀ e2, a.redisClient ≠ none → o.redis = some e2 →
        (a.postgresDB = none ∨ o.postgres = none) →
        (a.Disconnect o).1 = some ("disconnect errors: [Redis disconnect error: " ++ e2 ++ "]"))
    ∧ (∀ e1 e2, a.postgresDB ≠ none → o.postgres = some e1 →
        a.redisClient ≠ none → o.redis = some e2 →
        (a.Disconnect o).1
          = some ("disconnect errors: [PostgreSQL disconnect error: " ++ e1
              ++ " Redis disconnect error: " ++ e2 ++ "]")) := by
  obtain ⟨config, logger, pg, rc, _, _, _, _, _⟩ := a
  obtain ⟨op, or⟩ := o
  cases pg <;> cases rc <;> cases op <;> cases or <;>
    simp [CustodianDataAdapter.Disconnect, disconnectPostgres, disconnectRedis,
      fmtErrors_one, fmtErrors_two, String.append_assoc] <;>
    rfl

/-- Witness of C11: the PostgreSQL disconnect fails, the Redis one
succeeds. -/
theorem disconnect_error_text_witness :
    (adapterBoth.Disconnect ⟨some "broken pipe", none⟩).1
        = some "disconnect errors: [PostgreSQL disconnect error: broken pipe]"
    ∧ Event.redisDisconnect ∈ (adapterBoth.Disconnect ⟨some "broken pipe", none⟩).2 :=
  have h := (disconnect_error_text adapterBoth ⟨some "broken pipe", none⟩).1
    "broken pipe" (by decide) rfl (Or.inr rfl)
  ⟨h.1, h.2 (by decide)⟩

/-- C12: when the PostgreSQL client is attached and its probe fails,
`HealthCheck` returns that error behind `PostgreSQL health check failed: `
and the only call made is the PostgreSQL probe; when the PostgreSQL client is
absent or its probe passes and the attached Redis client fails its probe, the
error is behind `Redis health check failed: `. -/
theorem healthCheck_short_circuits (a : CustodianDataAdapter) (o : StoreAnswers) :
    (∀ e1, a.postgresDB ≠ none → o.postgres = some e1 →
        a.HealthCheck o
          = (some ("PostgreSQL health check failed: " ++ e1), [.postgresHealthCheck]))
    ∧ (∀ e2, (a.postgresDB = none ∨ o.postgres = none) → a.redisClient ≠ none →
        o.redis = some e2 →
        (a.HealthCheck o).1 = some ("Redis health check failed: " ++ e2)
        ∧ Event.redisHealthCheck ∈ (a.HealthCheck o).2) := by
  obtain ⟨config, logger, pg, rc, _, _, _, _, _⟩ := a
  obtain ⟨op, or⟩ := o
  cases pg <;> cases rc <;> cases op <;> cases or <;>
    simp [CustodianDataAdapter.HealthCheck]

/-- Witness of C12: both clients attached; first both probes fail, then
only the Redis probe fails. -/
theorem healthCheck_short_circuits_witness :
    adapterBoth.HealthCheck ⟨some "connection refused", some "timeout"⟩
        = (some "PostgreSQL health check failed: connection refused",
           [.postgresHealthCheck])
    ∧ (adapterBoth.HealthCheck ⟨none, some "timeout"⟩).1
        = some "Redis health check failed: timeout"
    ∧ Event.redisHealthCheck ∈ (adapterBoth.HealthCheck ⟨none, some "timeout"⟩).2 :=
  ⟨(healthCheck_short_circuits adapterBoth ⟨some "connection refused", some "timeout"⟩).1
      "connection refused" (by decide) rfl,
   (healthCheck_short_circuits adapterBoth ⟨none, some "timeout"⟩).2
      "timeout" (Or.inr rfl) (by decide) rfl⟩

/-- C13: with no client attached `HealthCheck` succeeds and calls nothing;
with only the Redis client attached it succeeds exactly when the Redis probe
succeeds, the PostgreSQL probe is not called and the PostgreSQL answer does
not matter. -/
theorem healthCheck_absent_client (a : CustodianDataAdapter) (o : StoreAnswers) :
    (a.postgresDB = none → a.redisClient = none → a.HealthCheck o = (none, []))
    ∧ (a.postgresDB = none → a.redisClient ≠ none →
        ((a.HealthCheck o).1 = none ↔ o.redis = none)
        ∧ (a.HealthCheck o).2 = [.redisHealthCheck]
        ∧ ∀ answer, a.HealthCheck ⟨answer, o.redis⟩ = a.HealthCheck o) := by
  obtain ⟨config, logger, pg, rc, _, _, _, _, _⟩ := a
  obtain ⟨op, or⟩ := o
  cases pg <;> cases rc <;> cases op <;> cases or <;>
    simp [CustodianDataAdapter.HealthCheck]

/-- Witness of C13: the adapter without clients, and the Redis-only adapter
with a healthy Redis and a PostgreSQL answer that would be a failure. -/
theorem healthCheck_absent_client_witness :
    adapterNone.HealthCheck ⟨some "connection refused", some "timeout"⟩ = (none, [])
    ∧ (adapterRedisOnly.HealthCheck ⟨some "connection refused", none⟩).1 = none
    ∧ (adapterRedisOnly.HealthCheck ⟨some "connection refused", none⟩).2
        = [.redisHealthCheck] :=
  have h := (healthCheck_absent_client adapterRedisOnly ⟨some "connection refused", none⟩).2
    rfl (by decide)
  ⟨(healthCheck_absent_client adapterNone ⟨some "connection refused", some "timeout"⟩).1
      rfl rfl,
   h.1.mpr rfl, h.2.1⟩

/-! ## Repositories against the store -/

theorem updateWhere_of_no_hit {α : Type} (hit : α → Bool) (set : α → α) (rows : List α)
    (h : ∀ row ∈ rows, hit row = false) : updateWhere hit set rows = (rows, 0) := by
  unfold updateWhere
  have h1 : rows.map (fun row => if hit row then set row else row) = rows := by
    conv_rhs => rw [← List.map_id rows]
    apply List.map_congr_left
    intro row hrow
    simp [h row hrow]
  have h2 : rows.filter hit = [] := by
    simp only [List.filter_eq_nil_iff]
    intro row hrow
    simp [h row hrow]
  simp [h1, h2]

theorem deleteWhere_of_no_hit {α : Type} (hit : α → Bool) (rows : List α)
    (h : ∀ row ∈ rows, hit row = false) : deleteWhere hit rows = (rows, 0) := by
  unfold deleteWhere
  have h1 : rows.filter (fun row => !hit row) = rows := by
    rw [List.filter_eq_self]
    intro row hrow
    simp [h row hrow]
  have h2 : rows.filter hit = [] := by
    simp only [List.filter_eq_nil_iff]
    intro row hrow
    simp [h row hrow]
  simp [h1, h2]

theorem store_eta_positions (s : Store) : { s with positions := s.positions } = s := by
  cases s; rfl

theorem store_eta_settlements (s : Store) : { s with settlements := s.settlements } = s := by
  cases s; rfl

theorem store_eta_balances (s : Store) : { s with balances := s.balances } = s := by
  cases s; rfl

theorem any_eq_false_of_no_hit {α : Type} (hit : α → Bool) (rows : List α)
    (h : ∀ row ∈ rows, hit row = false) : rows.any hit = false := by
  simp only [List.any_eq_false]
  intro row hrow
  simp [h row hrow]

/-- C20: on a store that executes the statement, each key-targeted mutation
(position `Update`, `UpdateAvailableQuantity`, `Delete`; balance
`UpdateAvailableBalance`, `AtomicUpdate`; settlement `UpdateStatus`,
`Complete`, `Cancel`) called with a key that no stored row has returns the
not-found error of that key and leaves the store as it was. -/
theorem keyed_mutation_not_found (add : Float64 → Float64 → Float64) (s : Store)
    (now : Time) :
    (∀ p : Position, (∀ row ∈ s.positions, row.PositionID ≠ p.PositionID) →
        s.PositionUpdate p now = (s, some ("position not found: " ++ p.PositionID)))
    ∧ (∀ (positionID : String) (availableQty lockedQty : Float64),
        (∀ row ∈ s.positions, row.PositionID ≠ positionID) →
        s.PositionUpdateAvailableQuantity positionID availableQty lockedQty now
          = (s, some ("position not found: " ++ positionID)))
    ∧ (∀ positionID : String, (∀ row ∈ s.positions, row.PositionID ≠ positionID) →
        s.PositionDelete positionID = (s, some ("position not found: " ++ positionID)))
    ∧ (∀ (balanceID : String) (availableBalance lockedBalance : Float64),
        (∀ row ∈ s.balances, row.BalanceID ≠ balanceID) →
        s.BalanceUpdateAvailableBalance add balanceID availableBalance lockedBalance now
          = (s, some ("balance not found: " ++ balanceID)))
    ∧ (∀ (accountID currency : String) (availableDelta lockedDelta : Float64),
        (∀ row ∈ s.balances, ¬ (row.AccountID = accountID ∧ row.Currency = currency)) →
        s.BalanceAtomicUpdate add accountID currency availableDelta lockedDelta now
          = (s, some ("balance not found for account " ++ accountID ++ " and currency "
              ++ currency)))
    ∧ (∀ settlementID status : String,
        (∀ row ∈ s.settlements, row.SettlementID ≠ settlementID) →
        s.SettlementUpdateStatus settlementID status
          = (s, some ("settlement not found: " ++ settlementID)))
    ∧ (∀ settlementID : String, (∀ row ∈ s.settlements, row.SettlementID ≠ settlementID) →
        s.SettlementComplete settlementID now
          = (s, some ("settlement not found: " ++ settlementID)))
    ∧ (∀ settlementID : String, (∀ row ∈ s.settlements, row.SettlementID ≠ settlementID) →
        s.SettlementCancel settlementID
          = (s, some ("settlement not found: " ++ settlementID))) := by
  refine ⟨?_, ?_, ?_, ?_, ?_, ?_, ?_, ?_⟩
  · intro p h
    have hh : ∀ row ∈ s.positions, (row.PositionID == p.PositionID) = false := by
      intro row hrow; simpa using h row hrow
    simp [Store.PositionUpdate, Store.updatePosition, any_eq_false_of_no_hit _ _ hh,
      updateWhere_of_no_hit _ _ _ hh, store_eta_positions,
      PostgresPositionRepository.Update, execKeyed]
  · intro positionID a l h
    have hh : ∀ row ∈ s.positions, (row.PositionID == positionID) = false := by
      intro row hrow; simpa using h row hrow
    simp [Store.PositionUpdateAvailableQuantity, Store.updatePositionQuantities,
      updateWhere_of_no_hit _ _ _ hh, store_eta_positions,
      PostgresPositionRepository.UpdateAvailableQuantity, execKeyed]
  · intro positionID h
    have hh : ∀ row ∈ s.positions, (row.PositionID == positionID) = false := by
      intro row hrow; simpa using h row hrow
    simp [Store.PositionDelete, Store.deletePosition,
      deleteWhere_of_no_hit _ _ hh, store_eta_positions,
      PostgresPositionRepository.Delete, execKeyed]
  · intro balanceID a l h
    have hh : ∀ row ∈ s.balances, (row.BalanceID == balanceID) = false := by
      intro row hrow; simpa using h row hrow
    simp [Store.BalanceUpdateAvailableBalance, Store.updateBalanceAmounts,
      updateWhere_of_no_hit _ _ _ hh, store_eta_balances,
      PostgresBalanceRepository.UpdateAvailableBalance, execKeyed]
  · intro accountID currency a l h
    have hh : ∀ row ∈ s.balances,
        (row.AccountID == accountID && row.Currency == currency) = false := by
      intro row hrow; simpa using h row hrow
    simp [Store.BalanceAtomicUpdate, Store.atomicUpdateBalance,
      updateWhere_of_no_hit _ _ _ hh, store_eta_balances,
      PostgresBalanceRepository.AtomicUpdate, execKeyed]
  · intro settlementID status h
    have hh : ∀ row ∈ s.settlements, (row.SettlementID == settlementID) = false := by
      intro row hrow; simpa using h row hrow
    simp [Store.SettlementUpdateStatus, Store.updateSettlementStatus,
      updateWhere_of_no_hit _ _ _ hh, store_eta_settlements,
      PostgresSettlementRepository.UpdateStatus, execKeyed]
  · intro settlementID h
    have hh : ∀ row ∈ s.settlements, (row.SettlementID == settlementID) = false := by
      intro row hrow; simpa using h row hrow
    simp [Store.SettlementComplete, Store.completeSettlement,
      updateWhere_of_no_hit _ _ _ hh, store_eta_settlements,
      PostgresSettlementRepository.Complete, execKeyed]
  · intro settlementID h
    have hh : ∀ row ∈ s.settlements, (row.SettlementID == settlementID) = false := by
      intro row hrow; simpa using h row hrow
    simp [Store.SettlementCancel, Store.updateSettlementStatus,
      updateWhere_of_no_hit _ _ _ hh, store_eta_settlements,
      PostgresSettlementRepository.Cancel, execKeyed]

theorem find_append_last {α : Type} (hit : α → Bool) (rows : List α) (x : α)
    (h : ∀ row ∈ rows, hit row = false) (hx : hit x = true) :
    (rows ++ [x]).find? hit = some x := by
  induction rows with
  | nil => simp [List.find?, hx]
  | cons r rs ih =>
    have hr : hit r = false := h r (by simp)
    have hrs : ∀ row ∈ rs, hit row = false := fun row hrow => h row (by simp [hrow])
    simp [List.find?, hr, ih hrs]

theorem map_append_last {α : Type} (hit : α → Bool) (set : α → α) (rows : List α) (x : α)
    (h : ∀ row ∈ rows, hit row = false) (hx : hit x = true) :
    (rows ++ [x]).map (fun row => if hit row then set row else row) = rows ++ [set x] := by
  have h1 : rows.map (fun row => if hit row then set row else row) = rows := by
    conv_rhs => rw [← List.map_id rows]
    apply List.map_congr_left
    intro row hrow
    simp [h row hrow]
  simp [h1, hx]

theorem positionCreate_ok (s s1 : Store) (p : Position)
    (h : s.PositionCreate p = (s1, none)) :
    s1 = { s with positions := s.positions ++ [p] } := by
  unfold Store.PositionCreate Store.insertPosition at h
  split_ifs at h with hc
  · simp [PostgresPositionRepository.Create, execPlain] at h
  · simp at h
    exact h.1.symm

/-- C15: when no stored position has the identifier of `p` and `Create`
succeeds, `GetByID` of that identifier succeeds and returns `p`, field for
field; after a subsequent successful `Update` of that position with `q`,
`GetByID` returns the values of `q`, with the update instant as
`LastUpdated` and the creation instant it was stored with. -/
theorem position_round_trip (s s1 : Store) (p : Position)
    (hnew : ∀ row ∈ s.positions, row.PositionID ≠ p.PositionID)
    (hcreate : s.PositionCreate p = (s1, none)) :
    s1.PositionGetByID p.PositionID = { value := some p, err := none, log := [] }
    ∧ ∀ (q : Position) (now : Time) (s2 : Store), q.PositionID = p.PositionID →
        s1.PositionUpdate q now = (s2, none) →
        s2.PositionGetByID p.PositionID
          = { value := some { q with LastUpdated := now, CreatedAt := p.CreatedAt },
              err := none, log := [] } := by
  have hs1 := positionCreate_ok s s1 p hcreate
  have hh : ∀ row ∈ s.positions, (row.PositionID == p.PositionID) = false := by
    intro row hrow; simpa using hnew row hrow
  constructor
  · subst hs1
    simp [Store.PositionGetByID, Store.selectPositionByID, selectRow,
      find_append_last _ _ p hh (by simp), PostgresPositionRepository.GetByID, scanRow]
  · intro q now s2 hq hupd
    subst hs1
    unfold Store.PositionUpdate Store.updatePosition at hupd
    simp only [hq] at hupd
    split_ifs at hupd with hc
    · simp [PostgresPositionRepository.Update, execKeyed] at hupd
    · simp only [updateWhere, map_append_last _ _ _ p hh (by simp)] at hupd
      have h2 := (Prod.mk.inj hupd).1
      subst h2
      simp [Store.PositionGetByID, Store.selectPositionByID, selectRow,
        find_append_last _ _ _ hh, PostgresPositionRepository.GetByID, scanRow, hq]

/-- Witness of C15: a position created in the empty store, read, updated
and read again. -/
theorem position_round_trip_witness :
    (storeEmpty.PositionCreate position1).2 = none
    ∧ (storeEmpty.PositionCreate position1).1.PositionGetByID "pos-1"
        = { value := some position1, err := none, log := [] }
    ∧ ((storeEmpty.PositionCreate position1).1.PositionUpdate position1Changed ⟨200⟩).2
        = none
    ∧ ((storeEmpty.PositionCreate position1).1.PositionUpdate
          position1Changed ⟨200⟩).1.PositionGetByID "pos-1"
        = { value := some { position1Changed with LastUpdated := ⟨200⟩, CreatedAt := ⟨100⟩ },
            err := none, log := [] } :=
  have h := position_round_trip storeEmpty (storeEmpty.PositionCreate position1).1 position1
    (by decide) rfl
  ⟨rfl, h.1, rfl, h.2 position1Changed ⟨200⟩ _ rfl rfl⟩

/-- Witness of C20: the store with one row per table and keys it does not
hold. -/
theorem keyed_mutation_not_found_witness :
    storeOne.PositionUpdate { position1 with PositionID := "pos-9" } ⟨200⟩
        = (storeOne, some "position not found: pos-9")
    ∧ storeOne.PositionUpdateAvailableQuantity "pos-9" ⟨1⟩ ⟨2⟩ ⟨200⟩
        = (storeOne, some "position not found: pos-9")
    ∧ storeOne.PositionDelete "pos-9" = (storeOne, some "position not found: pos-9")
    ∧ storeOne.BalanceUpdateAvailableBalance (fun x _ => x) "bal-9" ⟨1⟩ ⟨2⟩ ⟨200⟩
        = (storeOne, some "balance not found: bal-9")
    ∧ storeOne.BalanceAtomicUpdate (fun x _ => x) "acc-1" "EUR" ⟨10⟩ ⟨3⟩ ⟨200⟩
        = (storeOne, some "balance not found for account acc-1 and currency EUR")
    ∧ storeOne.SettlementUpdateStatus "set-9" "FAILED"
        = (storeOne, some "settlement not found: set-9")
    ∧ storeOne.SettlementComplete "set-9" ⟨200⟩
        = (storeOne, some "settlement not found: set-9")
    ∧ storeOne.SettlementCancel "set-9" = (storeOne, some "settlement not found: set-9") :=
  have h := keyed_mutation_not_found (fun x _ => x) storeOne ⟨200⟩
  ⟨h.1 { position1 with PositionID := "pos-9" } (by decide),
   h.2.1 "pos-9" ⟨1⟩ ⟨2⟩ (by decide),
   h.2.2.1 "pos-9" (by decide),
   h.2.2.2.1 "bal-9" ⟨1⟩ ⟨2⟩ (by decide),
   h.2.2.2.2.1 "acc-1" "EUR" ⟨10⟩ ⟨3⟩ (by decide),
   h.2.2.2.2.2.1 "set-9" "FAILED" (by decide),
   h.2.2.2.2.2.2.1 "set-9" (by decide),
   h.2.2.2.2.2.2.2 "set-9" (by decide)⟩

/-! ## Getters and list queries -/

theorem append_ne_of_head (a b x y : String) (c d : Char)
    (ha : a.data.head? = some c) (hb : b.data.head? = some d) (hcd : c ≠ d) :
    a ++ x ≠ b ++ y := by
  intro h
  have h1 : (a ++ x).data.head? = some c := by
    rw [String.data_append]
    cases hda : a.data with
    | nil => simp [hda] at ha
    | cons u us => simpa [hda] using ha
  have h2 : (b ++ y).data.head? = some d := by
    rw [String.data_append]
    cases hdb : b.data with
    | nil => simp [hdb] at hb
    | cons u us => simpa [hdb] using hb
  rw [h] at h1
  rw [h1] at h2
  exact hcd (Option.some.inj h2)

theorem scanRow_contract {α : Type} (notFound logMsg failMsg : String)
    (h : ∀ failure, failMsg ++ failure ≠ notFound) :
    GetterContract (scanRow (α := α) notFound logMsg failMsg) := by
  refine ⟨⟨rfl, by simp [scanRow]⟩, ?_, ?_⟩
  · intro failure
    refine ⟨rfl, by simp [scanRow], ?_⟩
    simpa [scanRow] using h failure
  · intro record
    exact ⟨rfl, rfl⟩

/-- C14: each single-row getter of the three repositories (`GetByID`,
`GetByAccountAndSymbol`, `GetByExternalID`, `GetByAccountAndCurrency`)
returns, on zero rows, no record and a not-found error whose text differs
from the error of every store failure, and on one row that record and no
error; the not-found text of `GetByID` names the identifier. -/
theorem getters_not_found (id account key : String) :
    GetterContract (PostgresPositionRepository.GetByID id)
    ∧ GetterContract (PostgresPositionRepository.GetByAccountAndSymbol account key)
    ∧ GetterContract (PostgresSettlementRepository.GetByID id)
    ∧ GetterContract (PostgresSettlementRepository.GetByExternalID id)
    ∧ GetterContract (PostgresBalanceRepository.GetByID id)
    ∧ GetterContract (PostgresBalanceRepository.GetByAccountAndCurrency account key)
    ∧ (PostgresPositionRepository.GetByID id .noRows).err
        = some ("position not found: " ++ id)
    ∧ (PostgresSettlementRepository.GetByID id .noRows).err
        = some ("settlement not found: " ++ id)
    ∧ (PostgresBalanceRepository.GetByID id .noRows).err
        = some ("balance not found: " ++ id) := by
  refine ⟨?_, ?_, ?_, ?_, ?_, ?_, rfl, rfl, rfl⟩
  · exact scanRow_contract _ _ _ (fun failure =>
      append_ne_of_head _ _ _ _ 'f' 'p' rfl rfl (by decide))
  · refine scanRow_contract _ _ _ (fun failure => ?_)
    rw [String.append_assoc, String.append_assoc]
    exact append_ne_of_head _ _ _ _ 'f' 'p' rfl rfl (by decide)
  · exact scanRow_contract _ _ _ (fun failure =>
      append_ne_of_head _ _ _ _ 'f' 's' rfl rfl (by decide))
  · exact scanRow_contract _ _ _ (fun failure =>
      append_ne_of_head _ _ _ _ 'f' 's' rfl rfl (by decide))
  · exact scanRow_contract _ _ _ (fun failure =>
      append_ne_of_head _ _ _ _ 'f' 'b' rfl rfl (by decide))
  · refine scanRow_contract _ _ _ (fun failure => ?_)
    rw [String.append_assoc, String.append_assoc]
    exact append_ne_of_head _ _ _ _ 'f' 'b' rfl rfl (by decide)

/-- C19: when the store gives zero rows and no error, `Query` of each
repository returns the empty list, not nil, and no error, whatever the
descriptor. -/
theorem query_no_rows (pq : PositionQuery) (sq : SettlementQuery) (bq : BalanceQuery) :
    PostgresPositionRepository.Query pq (.ok { scans := [], iterErr := none })
        = { value := some [], err := none, log := [] }
    ∧ PostgresSettlementRepository.Query sq (.ok { scans := [], iterErr := none })
        = { value := some [], err := none, log := [] }
    ∧ PostgresBalanceRepository.Query bq (.ok { scans := [], iterErr := none })
        = { value := some [], err := none, log := [] } :=
  ⟨rfl, rfl, rfl⟩

theorem position_applyFilters_text (q : PositionQuery) :
    (PostgresPositionRepository.applyFilters q).sqlQuery
      = PostgresPositionRepository.queryBaseSQL ++ andJoined 1 q.presentPredicates := by
  obtain ⟨a, sy, mq, cu, ua, _, _, _, _⟩ := q
  cases a <;> cases sy <;> cases mq <;> cases cu <;> cases ua <;>
    simp only [PostgresPositionRepository.applyFilters, QueryBuild.addFilter,
      QueryBuild.addParam, PositionQuery.presentPredicates, andJoined, Option.map,
      Option.isSome, if_true, if_false, List.nil_append, List.append_nil, List.cons_append,
      Bool.false_eq_true] <;>
    decide

theorem position_buildQuery_order (q : PositionQuery) :
    ∃ tail, (PostgresPositionRepository.buildQuery q).sqlQuery
      = (PostgresPositionRepository.applyFilters q).sqlQuery ++ " ORDER BY " ++ tail := by
  have hlit : " ORDER BY last_updated DESC" = " ORDER BY " ++ "last_updated DESC" := by
    decide
  unfold PostgresPositionRepository.buildQuery PostgresPositionRepository.applyFilters
  dsimp only
  generalize QueryBuild.addFilter _ " AND last_updated > $" _ = b
  split_ifs <;>
    simp only [QueryBuild.addParam, QueryBuild.addText] <;>
    (try rw [hlit]) <;>
    simp only [String.append_assoc] <;>
    exact ⟨_, rfl⟩

theorem position_predicates_present (q : PositionQuery) :
    (mentions (andJoined 1 q.presentPredicates) "account_id =" ↔ q.AccountID ≠ none)
    ∧ (mentions (andJoined 1 q.presentPredicates) "symbol =" ↔ q.Symbol ≠ none)
    ∧ (mentions (andJoined 1 q.presentPredicates) "quantity >=" ↔ q.MinQuantity ≠ none)
    ∧ (mentions (andJoined 1 q.presentPredicates) "currency =" ↔ q.Currency ≠ none)
    ∧ (mentions (andJoined 1 q.presentPredicates) "last_updated >"
        ↔ q.UpdatedAfter ≠ none) := by
  obtain ⟨a, sy, mq, cu, ua, _, _, _, _⟩ := q
  cases a <;> cases sy <;> cases mq <;> cases cu <;> cases ua <;>
    simp only [PositionQuery.presentPredicates, andJoined, Option.isSome, if_true, if_false,
      List.nil_append, List.append_nil, List.cons_append, Bool.false_eq_true, ne_eq,
      not_true_eq_false, not_false_eq_true, iff_true, iff_false, reduceCtorEq] <;>
    decide

/-- C16: the statement of the position `Query` is the base text, then the
predicates of the filter fields that are present, each behind ` AND ` and
with its placeholder, then the `ORDER BY` part; the text between the base
and `ORDER BY` holds the predicate of a filter exactly when that filter is
present. -/
theorem position_query_filters (q : PositionQuery) :
    (∃ tail, (PostgresPositionRepository.buildQuery q).sqlQuery
        = PostgresPositionRepository.queryBaseSQL ++ andJoined 1 q.presentPredicates
            ++ " ORDER BY " ++ tail)
    ∧ (mentions (andJoined 1 q.presentPredicates) "account_id =" ↔ q.AccountID ≠ none)
    ∧ (mentions (andJoined 1 q.presentPredicates) "symbol =" ↔ q.Symbol ≠ none)
    ∧ (mentions (andJoined 1 q.presentPredicates) "quantity >=" ↔ q.MinQuantity ≠ none)
    ∧ (mentions (andJoined 1 q.presentPredicates) "currency =" ↔ q.Currency ≠ none)
    ∧ (mentions (andJoined 1 q.presentPredicates) "last_updated >"
        ↔ q.UpdatedAfter ≠ none) := by
  refine ⟨?_, position_predicates_present q⟩
  obtain ⟨tail, h⟩ := position_buildQuery_order q
  exact ⟨tail, by rw [h, position_applyFilters_text]⟩

/-- C17 (evaluation at the failing input): the balance `Query` builds the
same statement and arguments whatever `MinBalance`, `UpdatedAfter`, `Offset`,
`SortBy` and `SortOrder` are, and the settlement `Query` whatever `Symbol`,
`InitiatedAfter`, `Offset`, `SortBy` and `SortOrder` are: for descriptors
that set these options the statement is the default one, without predicate,
`OFFSET` or the requested order, and no argument is bound. -/
theorem list_queries_ignore_options (bq : BalanceQuery) (sq : SettlementQuery) :
    PostgresBalanceRepository.buildQuery bq
        = PostgresBalanceRepository.buildQuery
            { bq with MinBalance := none, UpdatedAfter := none, Offset := 0, SortBy := "",
                      SortOrder := "" }
    ∧ PostgresSettlementRepository.buildQuery sq
        = PostgresSettlementRepository.buildQuery
            { sq with Symbol := none, InitiatedAfter := none, Offset := 0, SortBy := "",
                      SortOrder := "" }
    ∧ PostgresBalanceRepository.buildQuery balanceQueryOptions
        = { sqlQuery := PostgresBalanceRepository.queryBaseSQL
              ++ " ORDER BY last_updated DESC",
            args := [], argCount := 1 }
    ∧ PostgresSettlementRepository.buildQuery settlementQueryOptions
        = { sqlQuery := PostgresSettlementRepository.queryBaseSQL
              ++ " ORDER BY initiated_at DESC",
            args := [], argCount := 1 } :=
  ⟨rfl, rfl, by decide, by decide⟩

/-- C18: for a descriptor with no filter, no sort field, no limit and no
offset, the `Query` of each repository builds the base text followed by
`ORDER BY last_updated DESC` (positions, balances) or
`ORDER BY initiated_at DESC` (settlements), binds no argument, and the
statement holds no ` AND `, `LIMIT` or `OFFSET`. -/
theorem default_query_statement (pq : PositionQuery) (sq : SettlementQuery)
    (bq : BalanceQuery)
    (hp : pq.AccountID = none ∧ pq.Symbol = none ∧ pq.MinQuantity = none
      ∧ pq.Currency = none ∧ pq.UpdatedAfter = none ∧ pq.SortBy = "" ∧ pq.Limit = 0
      ∧ pq.Offset = 0)
    (hs : sq.AccountID = none ∧ sq.Status = none ∧ sq.SettlementType = none
      ∧ sq.Symbol = none ∧ sq.InitiatedAfter = none ∧ sq.SortBy = "" ∧ sq.Limit = 0
      ∧ sq.Offset = 0)
    (hb : bq.AccountID = none ∧ bq.Currency = none ∧ bq.MinBalance = none
      ∧ bq.UpdatedAfter = none ∧ bq.SortBy = "" ∧ bq.Limit = 0 ∧ bq.Offset = 0) :
    (PostgresPositionRepository.buildQuery pq
        = { sqlQuery := PostgresPositionRepository.queryBaseSQL
              ++ " ORDER BY last_updated DESC",
            args := [], argCount := 1 }
      ∧ PostgresSettlementRepository.buildQuery sq
        = { sqlQuery := PostgresSettlementRepository.queryBaseSQL
              ++ " ORDER BY initiated_at DESC",
            args := [], argCount := 1 }
      ∧ PostgresBalanceRepository.buildQuery bq
        = { sqlQuery := PostgresBalanceRepository.queryBaseSQL
              ++ " ORDER BY last_updated DESC",
            args := [], argCount := 1 })
    ∧ (∀ word ∈ [" AND ", "LIMIT", "OFFSET"],
        ¬ mentions (PostgresPositionRepository.buildQuery pq).sqlQuery word
        ∧ ¬ mentions (PostgresSettlementRepository.buildQuery sq).sqlQuery word
        ∧ ¬ mentions (PostgresBalanceRepository.buildQuery bq).sqlQuery word) := by
  obtain ⟨p1, p2, p3, p4, p5, p6, p7, p8⟩ := hp
  obtain ⟨s1, s2, s3, s4, s5, s6, s7, s8⟩ := hs
  obtain ⟨b1, b2, b3, b4, b5, b6, b7⟩ := hb
  have hP : PostgresPositionRepository.buildQuery pq
      = { sqlQuery := PostgresPositionRepository.queryBaseSQL
            ++ " ORDER BY last_updated DESC",
          args := [], argCount := 1 } := by
    simp [PostgresPositionRepository.buildQuery, QueryBuild.addFilter, QueryBuild.addText,
      p1, p2, p3, p4, p5, p6, p7, p8]
  have hS : PostgresSettlementRepository.buildQuery sq
      = { sqlQuery := PostgresSettlementRepository.queryBaseSQL
            ++ " ORDER BY initiated_at DESC",
          args := [], argCount := 1 } := by
    simp [PostgresSettlementRepository.buildQuery, QueryBuild.addFilter, QueryBuild.addText,
      s1, s2, s3, s7]
  have hB : PostgresBalanceRepository.buildQuery bq
      = { sqlQuery := PostgresBalanceRepository.queryBaseSQL
            ++ " ORDER BY last_updated DESC",
          args := [], argCount := 1 } := by
    simp [PostgresBalanceRepository.buildQuery, QueryBuild.addFilter, QueryBuild.addText,
      b1, b2, b6]
  refine ⟨⟨hP, hS, hB⟩, ?_⟩
  rw [hP, hS, hB]
  decide

/-- Witness of C18: the descriptors with no option set. -/
theorem default_query_statement_witness :
    PostgresPositionRepository.buildQuery PositionQuery.empty
        = { sqlQuery := PostgresPositionRepository.queryBaseSQL
              ++ " ORDER BY last_updated DESC",
            args := [], argCount := 1 }
    ∧ PostgresSettlementRepository.buildQuery SettlementQuery.empty
        = { sqlQuery := PostgresSettlementRepository.queryBaseSQL
              ++ " ORDER BY initiated_at DESC",
            args := [], argCount := 1 }
    ∧ PostgresBalanceRepository.buildQuery BalanceQuery.empty
        = { sqlQuery := PostgresBalanceRepository.queryBaseSQL
              ++ " ORDER BY last_updated DESC",
            args := [], argCount := 1 } :=
  (default_query_statement PositionQuery.empty SettlementQuery.empty BalanceQuery.empty
    ⟨rfl, rfl, rfl, rfl, rfl, rfl, rfl, rfl⟩ ⟨rfl, rfl, rfl, rfl, rfl, rfl, rfl, rfl⟩
    ⟨rfl, rfl, rfl, rfl, rfl, rfl, rfl⟩).1

/-! ## Mutations, scenario helpers and list queries: what the code does -/

/-- C28 (evaluation at the failing input): in the chain of
`TestPositionCRUDOperations`, `Given`, `When`, `Then`, `And`, the step added
with `And` sits in the thens of the scenario but the functions called are the
given, the when and the first then only, since `execute` runs inside `Then`;
and in a chain with two `Then` the earlier steps are called twice. -/
theorem scenario_and_after_then_not_run :
    ((Given "a new position to create" 1).chain
        [.When "creating the position" 2, .Then "the position should be retrievable" 3,
         .And "the position can be updated" 4]).1.thens
      = [{ description := "the position should be retrievable", fn := 3 },
         { description := "the position can be updated", fn := 4 }]
    ∧ calledSteps ((Given "a new position to create" 1).chain
        [.When "creating the position" 2, .Then "the position should be retrievable" 3,
         .And "the position can be updated" 4]).2
      = [{ description := "a new position to create", fn := 1 },
         { description := "creating the position", fn := 2 },
         { description := "the position should be retrievable", fn := 3 }]
    ∧ calledSteps ((Given "g" 1).chain [.When "w" 2, .Then "t1" 3, .Then "t2" 4]).2
      = [{ description := "g", fn := 1 }, { description := "w", fn := 2 },
         { description := "t1", fn := 3 }, { description := "g", fn := 1 },
         { description := "w", fn := 2 }, { description := "t1", fn := 3 },
         { description := "t2", fn := 4 }] := by
  decide

/-- C23 (evaluation at the failing input): when the row iteration of a
position `Query` stops on an error after one row, the method returns that
one row and no error; when `RowsAffected()` of an `Update` reports an error,
the method returns success for a count of one and the not-found error for a
count of zero, never the store error. -/
theorem store_errors_swallowed (q : PositionQuery) :
    PostgresPositionRepository.Query q
        (.ok { scans := [.ok position1], iterErr := some "connection reset by peer" })
      = { value := some [position1], err := none, log := [] }
    ∧ PostgresPositionRepository.Update "pos-1"
        (.done 1 (some "rows affected not supported")) = (none, [])
    ∧ PostgresPositionRepository.Update "pos-1"
        (.done 0 (some "rows affected not supported"))
      = (some "position not found: pos-1", []) := by
  refine ⟨rfl, rfl, rfl⟩

/-- C22 (evaluation at the failing input): the position `Create` binds the
`LastUpdated` and `CreatedAt` that the record of the caller carries to
`last_updated` and `created_at`, and the settlement `Create` binds the
`InitiatedAt`, `CompletedAt` and `ExpectedSettlementDate` of the caller; no
clock is read.  For the position with `LastUpdated` 5 and `CreatedAt` 7 the
store keeps these values, whereas `Update` of the same record at the instant
200 binds 200 to `last_updated`, and so does `Upsert` of a balance. -/
theorem create_writes_caller_timestamps :
    (∀ position : Position,
        (PostgresPositionRepository.createArgs position).get? 9
          = some (.time position.LastUpdated)
        ∧ (PostgresPositionRepository.createArgs position).get? 10
          = some (.time position.CreatedAt))
    ∧ (∀ settlement : Settlement,
        (PostgresSettlementRepository.createArgs settlement).get? 9
          = some (.time settlement.InitiatedAt)
        ∧ (PostgresSettlementRepository.createArgs settlement).get? 10
          = some (.optTime settlement.CompletedAt)
        ∧ (PostgresSettlementRepository.createArgs settlement).get? 11
          = some (.optTime settlement.ExpectedSettlementDate))
    ∧ position1Changed.LastUpdated = ⟨5⟩ ∧ position1Changed.CreatedAt = ⟨7⟩
    ∧ (PostgresPositionRepository.createArgs position1Changed).get? 9 = some (.time ⟨5⟩)
    ∧ (PostgresPositionRepository.createArgs position1Changed).get? 10 = some (.time ⟨7⟩)
    ∧ (storeEmpty.PositionCreate position1Changed).1.positions = [position1Changed]
    ∧ (PostgresPositionRepository.updateArgs position1Changed ⟨200⟩).get? 9
        = some (.time ⟨200⟩)
    ∧ (PostgresBalanceRepository.upsertArgs balance1 ⟨200⟩).get? 6 = some (.time ⟨200⟩) := by
  refine ⟨fun _ => ⟨rfl, rfl⟩, fun _ => ⟨rfl, rfl, rfl⟩, ?_⟩
  decide

/-- The sibling mutations `Update`, `UpdateAvailableQuantity`, `Upsert`,
`UpdateAvailableBalance`, `AtomicUpdate` and `Complete` bind the clock
reading to the timestamp column they write (`last_updated`,
`completed_at`), and the arguments of `Update` and `Upsert` do not depend on
the timestamps the record of the caller carries. -/
theorem updates_write_clock (now : Time) :
    (∀ position : Position,
        (PostgresPositionRepository.updateArgs position now).get? 9 = some (.time now)
        ∧ ∀ t1 t2, PostgresPositionRepository.updateArgs
              { position with LastUpdated := t1, CreatedAt := t2 } now
            = PostgresPositionRepository.updateArgs position now)
    ∧ (∀ positionID availableQty lockedQty,
        (PostgresPositionRepository.updateAvailableQuantityArgs positionID availableQty
          lockedQty now).get? 3 = some (.time now))
    ∧ (∀ balance : Balance,
        (PostgresBalanceRepository.upsertArgs balance now).get? 6 = some (.time now)
        ∧ ∀ t, PostgresBalanceRepository.upsertArgs { balance with LastUpdated := t } now
            = PostgresBalanceRepository.upsertArgs balance now)
    ∧ (∀ balanceID availableBalance lockedBalance,
        (PostgresBalanceRepository.updateAvailableBalanceArgs balanceID availableBalance
          lockedBalance now).get? 3 = some (.time now))
    ∧ (∀ accountID currency availableDelta lockedDelta,
        (PostgresBalanceRepository.atomicUpdateArgs accountID currency availableDelta
          lockedDelta now).get? 4 = some (.time now))
    ∧ (∀ settlementID,
        (PostgresSettlementRepository.completeArgs settlementID now).get? 2
          = some (.time now)) := by
  refine ⟨fun position => ⟨rfl, fun _ _ => rfl⟩, fun _ _ _ => rfl,
    fun balance => ⟨rfl, fun _ => rfl⟩, fun _ _ _ => rfl, fun _ _ _ _ => rfl, fun _ => rfl⟩

theorem scanRows_map_ok {α : Type} (l : List α) :
    scanRows (l.map Except.ok) = (.ok l : Except String (List α)) := by
  induction l with
  | nil => rfl
  | cons x xs ih => simp [scanRows, ih]

theorem positionGetByAccount_value (s : Store) (accountID : String) :
    s.PositionGetByAccount accountID
      = { value := some (s.selectPositionsByAccount accountID 1000), err := none,
          log := [] } := by
  simp [Store.PositionGetByAccount, PostgresPositionRepository.Query, collectRows,
    scanRows_map_ok, PostgresPositionRepository.getByAccountQuery]

theorem balanceGetByAccount_value (s : Store) (accountID : String) :
    s.BalanceGetByAccount accountID
      = { value := some (s.selectBalancesByAccount accountID 1000), err := none,
          log := [] } := by
  simp [Store.BalanceGetByAccount, PostgresBalanceRepository.Query, collectRows,
    scanRows_map_ok, PostgresBalanceRepository.getByAccountQuery]

theorem positionOfAccount_injective : Function.Injective positionOfAccount := by
  intro i j h
  have h1 : (positionOfAccount i).LastUpdated = (positionOfAccount j).LastUpdated := by
    rw [h]
  simpa [positionOfAccount] using h1

/-- C24 (evaluation at the failing input): `GetByAccount` of the position
and of the balance repository never returns more than 1000 records; on a
store with 1001 positions of one account it succeeds and a stored position
of that account is missing from the list. -/
theorem getByAccount_truncates :
    (∀ (s : Store) (accountID : String),
        ∃ l, (s.PositionGetByAccount accountID).value = some l ∧ l.length ≤ 1000)
    ∧ (∀ (s : Store) (accountID : String),
        ∃ l, (s.BalanceGetByAccount accountID).value = some l ∧ l.length ≤ 1000)
    ∧ storeBig.positions.length = 1001
    ∧ (∀ row ∈ storeBig.positions, row.AccountID = "acc-1")
    ∧ ∃ l, (storeBig.PositionGetByAccount "acc-1").value = some l
        ∧ (storeBig.PositionGetByAccount "acc-1").err = none
        ∧ ∃ row ∈ storeBig.positions, row.AccountID = "acc-1" ∧ row ∉ l := by
  have hlen : ∀ (s : Store) (accountID : String),
      (s.selectPositionsByAccount accountID 1000).length ≤ 1000 := by
    intro s accountID
    simp [Store.selectPositionsByAccount, List.length_take]
  have hacc : ∀ row ∈ storeBig.positions, row.AccountID = "acc-1" := by
    intro row hrow
    simp only [storeBig, List.mem_map] at hrow
    obtain ⟨i, _, rfl⟩ := hrow
    rfl
  refine ⟨?_, ?_, ?_, hacc, ?_⟩
  · intro s accountID
    exact ⟨_, by rw [positionGetByAccount_value], hlen s accountID⟩
  · intro s accountID
    refine ⟨_, by rw [balanceGetByAccount_value], ?_⟩
    simp [Store.selectBalancesByAccount, List.length_take]
  · simp [storeBig]
  · refine ⟨_, by rw [positionGetByAccount_value], by rw [positionGetByAccount_value], ?_⟩
    by_contra hall
    push_neg at hall
    have hsub : storeBig.positions ⊆ storeBig.selectPositionsByAccount "acc-1" 1000 :=
      fun row hrow => hall row hrow (hacc row hrow)
    have hnodup : storeBig.positions.Nodup :=
      (List.nodup_range 1001).map positionOfAccount_injective
    have hle := (List.subperm_of_subset hnodup hsub).length_le
    have h1 : storeBig.positions.length = 1001 := by simp [storeBig]
    have h2 := hlen storeBig "acc-1"
    omega

/-! ## Statement text, placeholders and arguments -/

theorem sameText_addFilter (b1 b2 : QueryBuild) (text : String) (v1 v2 : Option SqlArg)
    (hb : SameText b1 b2) (hv : v1.isSome = v2.isSome) :
    SameText (b1.addFilter text v1) (b2.addFilter text v2) := by
  obtain ⟨h1, h2⟩ := hb
  cases v1 <;> cases v2 <;> simp at hv <;>
    simp [SameText, QueryBuild.addFilter, QueryBuild.addParam, h1, h2]

theorem sameText_addText (b1 b2 : QueryBuild) (text : String) (hb : SameText b1 b2) :
    SameText (b1.addText text) (b2.addText text) := by
  obtain ⟨h1, h2⟩ := hb
  simp [SameText, QueryBuild.addText, h1, h2]

theorem sameText_ite_addParam (c1 c2 : Prop) [Decidable c1] [Decidable c2]
    (b1 b2 : QueryBuild) (text : String) (v1 v2 : SqlArg) (hb : SameText b1 b2)
    (hc : c1 ↔ c2) :
    SameText (if c1 then b1.addParam text v1 else b1)
      (if c2 then b2.addParam text v2 else b2) := by
  obtain ⟨h1, h2⟩ := hb
  by_cases h : c1
  · have h' : c2 := hc.mp h
    simp [SameText, QueryBuild.addParam, h, h', h1, h2]
  · have h' : ¬ c2 := fun x => h (hc.mpr x)
    simp [SameText, h, h', h1, h2]

/-- C27: two position descriptors with the same present filters, the same
`SortBy` and `SortOrder` and the same positivity of `Limit` and `Offset` get
the same statement text; two balance descriptors, and two settlement
descriptors, with the same present filters among those the builder reads and
the same positivity of `Limit` get the same statement text. -/
theorem statement_text_depends_on_shape :
    (∀ q1 q2 : PositionQuery,
        q1.AccountID.isSome = q2.AccountID.isSome → q1.Symbol.isSome = q2.Symbol.isSome →
        q1.MinQuantity.isSome = q2.MinQuantity.isSome →
        q1.Currency.isSome = q2.Currency.isSome →
        q1.UpdatedAfter.isSome = q2.UpdatedAfter.isSome →
        q1.SortBy = q2.SortBy → q1.SortOrder = q2.SortOrder →
        (0 < q1.Limit ↔ 0 < q2.Limit) → (0 < q1.Offset ↔ 0 < q2.Offset) →
        (PostgresPositionRepository.buildQuery q1).sqlQuery
          = (PostgresPositionRepository.buildQuery q2).sqlQuery)
    ∧ (∀ q1 q2 : BalanceQuery,
        q1.AccountID.isSome = q2.AccountID.isSome →
        q1.Currency.isSome = q2.Currency.isSome →
        (0 < q1.Limit ↔ 0 < q2.Limit) →
        (PostgresBalanceRepository.buildQuery q1).sqlQuery
          = (PostgresBalanceRepository.buildQuery q2).sqlQuery)
    ∧ (∀ q1 q2 : SettlementQuery,
        q1.AccountID.isSome = q2.AccountID.isSome → q1.Status.isSome = q2.Status.isSome →
        q1.SettlementType.isSome = q2.SettlementType.isSome →
        (0 < q1.Limit ↔ 0 < q2.Limit) →
        (PostgresSettlementRepository.buildQuery q1).sqlQuery
          = (PostgresSettlementRepository.buildQuery q2).sqlQuery) := by
  refine ⟨?_, ?_, ?_⟩
  · intro q1 q2 h1 h2 h3 h4 h5 hs ho hl hoff
    unfold PostgresPositionRepository.buildQuery
    dsimp only
    rw [hs, ho]
    refine (sameText_ite_addParam _ _ _ _ _ _ _ ?_ hoff).1
    refine sameText_ite_addParam _ _ _ _ _ _ _ ?_ hl
    have hf : SameText
        (((((({ sqlQuery := PostgresPositionRepository.queryBaseSQL, args := [],
                argCount := 1 } : QueryBuild).addFilter " AND account_id = $"
              (q1.AccountID.map SqlArg.text)).addFilter " AND symbol = $"
              (q1.Symbol.map SqlArg.text)).addFilter " AND quantity >= $"
              (q1.MinQuantity.map SqlArg.float)).addFilter " AND currency = $"
              (q1.Currency.map SqlArg.text)).addFilter " AND last_updated > $"
              (q1.UpdatedAfter.map SqlArg.time))
        (((((({ sqlQuery := PostgresPositionRepository.queryBaseSQL, args := [],
                argCount := 1 } : QueryBuild).addFilter " AND account_id = $"
              (q2.AccountID.map SqlArg.text)).addFilter " AND symbol = $"
              (q2.Symbol.map SqlArg.text)).addFilter " AND quantity >= $"
              (q2.MinQuantity.map SqlArg.float)).addFilter " AND currency = $"
              (q2.Currency.map SqlArg.text)).addFilter " AND last_updated > $"
              (q2.UpdatedAfter.map SqlArg.time)) := by
      refine sameText_addFilter _ _ _ _ _ ?_ (by simp [h5])
      refine sameText_addFilter _ _ _ _ _ ?_ (by simp [h4])
      refine sameText_addFilter _ _ _ _ _ ?_ (by simp [h3])
      refine sameText_addFilter _ _ _ _ _ ?_ (by simp [h2])
      refine sameText_addFilter _ _ _ _ _ ?_ (by simp [h1])
      exact ⟨rfl, rfl⟩
    split_ifs <;> exact sameText_addText _ _ _ hf
  · intro q1 q2 h1 h2 hl
    unfold PostgresBalanceRepository.buildQuery
    dsimp only
    refine (sameText_ite_addParam _ _ _ _ _ _ _ ?_ hl).1
    refine sameText_addText _ _ _ ?_
    refine sameText_addFilter _ _ _ _ _ ?_ (by simp [h2])
    refine sameText_addFilter _ _ _ _ _ ?_ (by simp [h1])
    exact ⟨rfl, rfl⟩
  · intro q1 q2 h1 h2 h3 hl
    unfold PostgresSettlementRepository.buildQuery
    dsimp only
    refine (sameText_ite_addParam _ _ _ _ _ _ _ ?_ hl).1
    refine sameText_addText _ _ _ ?_
    refine sameText_addFilter _ _ _ _ _ ?_ (by simp [h3])
    refine sameText_addFilter _ _ _ _ _ ?_ (by simp [h2])
    refine sameText_addFilter _ _ _ _ _ ?_ (by simp [h1])
    exact ⟨rfl, rfl⟩

theorem scanRun_append (st : ScanState) (a b : List Char) :
    scanRun st (a ++ b)
      = ((scanRun (scanRun st a).1 b).1, (scanRun st a).2 ++ (scanRun (scanRun st a).1 b).2) := by
  induction a generalizing st with
  | nil => simp [scanRun]
  | cons c cs ih => simp [scanRun, ih, List.append_assoc]

theorem scanRun_free (l : List Char) (h : '$' ∉ l) : scanRun .idle l = (.idle, []) := by
  induction l with
  | nil => rfl
  | cons c cs ih =>
    have hc : c ≠ '$' := fun e => h (by simp [e])
    have hcs : '$' ∉ cs := fun e => h (by simp [e])
    simp [scanRun, scanStep, hc, ih hcs]

theorem scanRun_space_free (st : ScanState) (l : List Char) (h : '$' ∉ l) :
    scanRun st (' ' :: l) = (.idle, scanFlush st) := by
  cases st <;> simp [scanRun, scanStep, scanFlush, scanRun_free l h]

theorem scanRun_space_free_append (st : ScanState) (l b : List Char) (h : '$' ∉ l) :
    scanRun st (' ' :: (l ++ b))
      = ((scanRun .idle b).1, scanFlush st ++ (scanRun .idle b).2) := by
  rw [← List.cons_append, scanRun_append, scanRun_space_free st l h]

theorem placeholders_sandwich (f o p : String) (rest : List Char)
    (ho : o.data = ' ' :: rest) (hfree : '$' ∉ rest) :
    placeholders (f ++ o ++ p) = placeholders f ++ placeholders p := by
  simp only [placeholders, String.data_append, List.append_assoc, ho, List.cons_append]
  rw [scanRun_append, scanRun_space_free_append _ _ _ hfree]
  simp [List.append_assoc]

theorem position_buildQuery_text (q : PositionQuery) :
    (PostgresPositionRepository.buildQuery q).sqlQuery
      = (PostgresPositionRepository.applyFilters q).sqlQuery ++ q.orderText
          ++ pagingText (PostgresPositionRepository.applyFilters q).argCount
              (decide (0 < q.Limit)) (decide (0 < q.Offset)) := by
  unfold PostgresPositionRepository.buildQuery PostgresPositionRepository.applyFilters
  dsimp only
  generalize QueryBuild.addFilter _ " AND last_updated > $" _ = b
  by_cases hs : q.SortBy = "" <;> by_cases hl : 0 < q.Limit <;> by_cases ho : 0 < q.Offset <;>
    simp only [QueryBuild.addParam, QueryBuild.addText, PositionQuery.orderText, pagingText,
      hs, hl, ho, String.append_assoc, if_true, if_false, decide_True, decide_False, ne_eq,
      not_true_eq_false, not_false_eq_true, String.append_empty, String.empty_append,
      Bool.false_eq_true]

theorem position_applyFilters_argCount (q : PositionQuery) :
    (PostgresPositionRepository.applyFilters q).argCount = q.presentPredicates.length + 1 := by
  obtain ⟨a, sy, mq, cu, ua, _, _, _, _⟩ := q
  cases a <;> cases sy <;> cases mq <;> cases cu <;> cases ua <;> rfl

theorem position_buildQuery_args (q : PositionQuery) :
    (PostgresPositionRepository.buildQuery q).args = q.expectedArgs := by
  obtain ⟨a, sy, mq, cu, ua, limit, offset, _, _⟩ := q
  cases a <;> cases sy <;> cases mq <;> cases cu <;> cases ua <;>
    by_cases hl : 0 < limit <;> by_cases ho : 0 < offset <;>
    simp [PostgresPositionRepository.buildQuery, QueryBuild.addFilter, QueryBuild.addParam,
      QueryBuild.addText, PositionQuery.expectedArgs, hl, ho, apply_ite QueryBuild.args]

theorem position_orderText_shape (q : PositionQuery) (h : '$' ∉ q.SortBy.data) :
    ∃ rest, q.orderText.data = ' ' :: rest ∧ '$' ∉ rest := by
  unfold PositionQuery.orderText
  split_ifs with h1 h2
  · refine ⟨"ORDER BY ".data ++ q.SortBy.data ++ " ".data ++ "DESC".data, ?_, ?_⟩
    · simp only [String.data_append]
      rfl
    · simp only [List.mem_append, not_or]
      exact ⟨⟨⟨by decide, h⟩, by decide⟩, by decide⟩
  · refine ⟨"ORDER BY ".data ++ q.SortBy.data ++ " ".data ++ "ASC".data, ?_, ?_⟩
    · simp only [String.data_append]
      rfl
    · simp only [List.mem_append, not_or]
      exact ⟨⟨⟨by decide, h⟩, by decide⟩, by decide⟩
  · exact ⟨"ORDER BY last_updated DESC".data, rfl, by decide⟩

theorem position_placeholders (q : PositionQuery) (h : '$' ∉ q.SortBy.data) :
    placeholders (PostgresPositionRepository.buildQuery q).sqlQuery
      = List.range' 1 (PostgresPositionRepository.buildQuery q).args.length := by
  obtain ⟨rest, ho, hfree⟩ := position_orderText_shape q h
  rw [position_buildQuery_text, placeholders_sandwich _ _ _ rest ho hfree,
    position_applyFilters_text, position_applyFilters_argCount, position_buildQuery_args]
  obtain ⟨a, sy, mq, cu, ua, limit, offset, _, _⟩ := q
  cases a <;> cases sy <;> cases mq <;> cases cu <;> cases ua <;>
    by_cases hl : 0 < limit <;> by_cases hoff : 0 < offset <;>
    simp only [PositionQuery.presentPredicates, PositionQuery.expectedArgs, andJoined,
      pagingText, hl, hoff, Option.isSome, Option.map, Option.toList, if_true, if_false,
      decide_True, decide_False, List.nil_append, List.append_nil, List.cons_append,
      List.length_cons, List.length_nil, Bool.false_eq_true, gt_iff_lt] <;>
    decide

theorem balance_buildQuery_args (q : BalanceQuery) :
    (PostgresBalanceRepository.buildQuery q).args = q.expectedArgs := by
  obtain ⟨a, cu, _, _, limit, _, _, _⟩ := q
  cases a <;> cases cu <;> by_cases hl : 0 < limit <;>
    simp [PostgresBalanceRepository.buildQuery, QueryBuild.addFilter, QueryBuild.addParam,
      QueryBuild.addText, BalanceQuery.expectedArgs, hl]

theorem settlement_buildQuery_args (q : SettlementQuery) :
    (PostgresSettlementRepository.buildQuery q).args = q.expectedArgs := by
  obtain ⟨a, st, ty, _, _, limit, _, _, _⟩ := q
  cases a <;> cases st <;> cases ty <;> by_cases hl : 0 < limit <;>
    simp [PostgresSettlementRepository.buildQuery, QueryBuild.addFilter,
      QueryBuild.addParam, QueryBuild.addText, SettlementQuery.expectedArgs, hl]

theorem balance_placeholders (q : BalanceQuery) :
    placeholders (PostgresBalanceRepository.buildQuery q).sqlQuery
      = List.range' 1 (PostgresBalanceRepository.buildQuery q).args.length := by
  rw [balance_buildQuery_args]
  obtain ⟨a, cu, _, _, limit, _, _, _⟩ := q
  cases a <;> cases cu <;> by_cases hl : 0 < limit <;>
    simp only [PostgresBalanceRepository.buildQuery, QueryBuild.addFilter,
      QueryBuild.addParam, QueryBuild.addText, BalanceQuery.expectedArgs, hl, Option.map,
      Option.toList, if_true, if_false, List.nil_append, List.append_nil, List.cons_append,
      List.length_cons, List.length_nil, gt_iff_lt] <;>
    decide

theorem settlement_placeholders (q : SettlementQuery) :
    placeholders (PostgresSettlementRepository.buildQuery q).sqlQuery
      = List.range' 1 (PostgresSettlementRepository.buildQuery q).args.length := by
  rw [settlement_buildQuery_args]
  obtain ⟨a, st, ty, _, _, limit, _, _, _⟩ := q
  cases a <;> cases st <;> cases ty <;> by_cases hl : 0 < limit <;>
    simp only [PostgresSettlementRepository.buildQuery, QueryBuild.addFilter,
      QueryBuild.addParam, QueryBuild.addText, SettlementQuery.expectedArgs, hl, Option.map,
      Option.toList, if_true, if_false, List.nil_append, List.append_nil, List.cons_append,
      List.length_cons, List.length_nil, gt_iff_lt] <;>
    decide

/-- C25 (counterexample): for the position descriptor with no filter and
the sort field `$9` the statement ends in `ORDER BY $9 ASC`: its
placeholders are `[9]` while no argument is bound. -/
theorem sortBy_adds_placeholder :
    (PostgresPositionRepository.buildQuery positionQueryDollar).sqlQuery
      = PostgresPositionRepository.queryBaseSQL ++ " ORDER BY $9 ASC"
    ∧ (PostgresPositionRepository.buildQuery positionQueryDollar).args = []
    ∧ placeholders (PostgresPositionRepository.buildQuery positionQueryDollar).sqlQuery = [9]
    ∧ placeholders (PostgresPositionRepository.buildQuery positionQueryDollar).sqlQuery
        ≠ List.range' 1
            (PostgresPositionRepository.buildQuery positionQueryDollar).args.length := by
  decide

/-- C25 (amended): for every position descriptor whose `SortBy` holds no
`$`, and for every balance and settlement descriptor, the placeholders of the
statement are `$1`..`$n` in increasing order, `n` being the number of
arguments, and the arguments are the values of the present filters in
declaration order, then the limit, then the offset. -/
theorem statement_and_arguments_agree :
    (∀ q : PositionQuery, '$' ∉ q.SortBy.data →
        placeholders (PostgresPositionRepository.buildQuery q).sqlQuery
          = List.range' 1 (PostgresPositionRepository.buildQuery q).args.length
        ∧ (PostgresPositionRepository.buildQuery q).args = q.expectedArgs)
    ∧ (∀ q : BalanceQuery,
        placeholders (PostgresBalanceRepository.buildQuery q).sqlQuery
          = List.range' 1 (PostgresBalanceRepository.buildQuery q).args.length
        ∧ (PostgresBalanceRepository.buildQuery q).args = q.expectedArgs)
    ∧ (∀ q : SettlementQuery,
        placeholders (PostgresSettlementRepository.buildQuery q).sqlQuery
          = List.range' 1 (PostgresSettlementRepository.buildQuery q).args.length
        ∧ (PostgresSettlementRepository.buildQuery q).args = q.expectedArgs) :=
  ⟨fun q h => ⟨position_placeholders q h, position_buildQuery_args q⟩,
   fun q => ⟨balance_placeholders q, balance_buildQuery_args q⟩,
   fun q => ⟨settlement_placeholders q, settlement_buildQuery_args q⟩⟩

/-- Witness of C25 (amended): a position descriptor with two filters, a
limit and an offset. -/
theorem statement_and_arguments_agree_witness :
    placeholders (PostgresPositionRepository.buildQuery positionQueryA).sqlQuery
        = [1, 2, 3, 4]
    ∧ (PostgresPositionRepository.buildQuery positionQueryA).args
        = [.text "acc-1", .float ⟨1⟩, .int 10, .int 20] :=
  statement_and_arguments_agree.1 positionQueryA (by decide)

/-- Witness of C27: descriptors of the same shape whose values differ. -/
theorem statement_text_depends_on_shape_witness :
    (PostgresPositionRepository.buildQuery positionQueryA).sqlQuery
        = (PostgresPositionRepository.buildQuery positionQueryB).sqlQuery
    ∧ (PostgresBalanceRepository.buildQuery balanceQueryA).sqlQuery
        = (PostgresBalanceRepository.buildQuery balanceQueryB).sqlQuery
    ∧ (PostgresSettlementRepository.buildQuery settlementQueryA).sqlQuery
        = (PostgresSettlementRepository.buildQuery settlementQueryB).sqlQuery :=
  ⟨statement_text_depends_on_shape.1 positionQueryA positionQueryB rfl rfl rfl rfl rfl rfl
      rfl (by decide) (by decide),
   statement_text_depends_on_shape.2.1 balanceQueryA balanceQueryB rfl rfl (by decide),
   statement_text_depends_on_shape.2.2 settlementQueryA settlementQueryB rfl rfl rfl
      (by decide)⟩

end Custodian
